import Mathlib

/-!
# Verification of the diagnosis pipeline services

A shallow embedding, in Lean 4, of the core services of the clinical
decision-support repository (the `diagnosis` Django app): deterministic case
fingerprinting, the LLM gateway with quota tracking and cascading fallback,
the asynchronous job orchestrator, the result-reuse path of the request
handler, similarity retrieval, and the clinical summary generator.

Python values are embedded as follows: `int` fields become `ℤ`, `float`
fields become `ℚ` (exact arithmetic; IEEE representation error of decimal
literals is not modelled), `Optional[T]` fields and Python `None` become
`Option`, exceptions become `Except String`, and database rows become fields
of explicit state records that the embedded operations thread through.
External collaborators with no behaviour of their own in the repository
(the Groq network client, the sentence-transformer embedding model, the
JSON text parser and the Python float constructor from the standard
library) are passed in as explicit function parameters, so every theorem
quantifies over their behaviour.
-/

set_option maxRecDepth 100000
set_option linter.unreachableTactic false
set_option linter.unusedTactic false

unseal Rat.mul Rat.inv Rat.add Rat.sub

namespace Diagnosis

/-! ## Python primitives

`round` in Python 3 rounds half to even (banker's rounding); the services
apply it to exact decimal values, embedded here on `ℚ`. -/

/-- Python 3 `round(q)`: nearest integer, ties to the even neighbour. -/
def pyRound (q : ℚ) : ℤ :=
  if q - ⌊q⌋ < 1 / 2 then ⌊q⌋
  else if 1 / 2 < q - ⌊q⌋ then ⌊q⌋ + 1
  else if 2 ∣ ⌊q⌋ then ⌊q⌋ else ⌊q⌋ + 1

/-- `pyRound` never strays more than half a unit from its argument. -/
theorem abs_pyRound_sub_le (q : ℚ) : |(pyRound q : ℚ) - q| ≤ 1 / 2 := by
  have h0 : ((⌊q⌋ : ℚ)) ≤ q := Int.floor_le q
  have h1 : q < (⌊q⌋ : ℚ) + 1 := Int.lt_floor_add_one q
  unfold pyRound
  split
  · rw [abs_le]; constructor <;> linarith
  · split
    · rw [abs_le]; constructor <;> push_cast <;> linarith
    · split <;> (rw [abs_le]; constructor <;> push_cast <;> linarith)

/-- Python whitespace characters recognised by `str.split()`. -/
def isPyWs (c : Char) : Bool :=
  c = ' ' || c = '\t' || c = '\n' || c = '\x0d' || c = '\x0b' || c = '\x0c'

/-- `str.split()` with no separator: split on whitespace runs, dropping
empty pieces (leading/trailing whitespace therefore never matters). -/
def pySplitGo : List Char → List Char → List (List Char)
  | [], acc => if acc = [] then [] else [acc.reverse]
  | c :: cs, acc =>
    if isPyWs c then
      if acc = [] then pySplitGo cs [] else acc.reverse :: pySplitGo cs []
    else pySplitGo cs (c :: acc)

def pySplit (s : List Char) : List (List Char) := pySplitGo s []

/-- `" ".join(pieces)`. -/
def joinSpace : List (List Char) → List Char
  | [] => []
  | [p] => p
  | p :: ps => p ++ ' ' :: joinSpace ps

/-! ## SHA-256

Executable implementation over `ℕ` (words are naturals reduced mod `2^32`),
so that concrete fingerprints evaluate inside the kernel. -/

/-- Truncate to a 32-bit word. -/
def w32 (n : ℕ) : ℕ := n % 4294967296

/-- Right rotation of a 32-bit word by `n` places. -/
def rotr32 (n x : ℕ) : ℕ := w32 (x / 2 ^ n + x % 2 ^ n * 2 ^ (32 - n))

/-- Logical right shift of a 32-bit word. -/
def shr32 (n x : ℕ) : ℕ := x / 2 ^ n

def ch32 (e f g : ℕ) : ℕ := (e &&& f) ^^^ ((e ^^^ 4294967295) &&& g)

def maj32 (a b c : ℕ) : ℕ := (a &&& b) ^^^ (a &&& c) ^^^ (b &&& c)

def bsig0 (x : ℕ) : ℕ := rotr32 2 x ^^^ rotr32 13 x ^^^ rotr32 22 x

def bsig1 (x : ℕ) : ℕ := rotr32 6 x ^^^ rotr32 11 x ^^^ rotr32 25 x

def ssig0 (x : ℕ) : ℕ := rotr32 7 x ^^^ rotr32 18 x ^^^ shr32 3 x

def ssig1 (x : ℕ) : ℕ := rotr32 17 x ^^^ rotr32 19 x ^^^ shr32 10 x

/-- The 64 SHA-256 round constants. -/
def shaK : List ℕ :=
  [1116352408, 1899447441, 3049323471, 3921009573, 961987163,
   1508970993, 2453635748, 2870763221, 3624381080, 310598401,
   607225278, 1426881987, 1925078388, 2162078206, 2614888103,
   3248222580, 3835390401, 4022224774, 264347078, 604807628,
   770255983, 1249150122, 1555081692, 1996064986, 2554220882,
   2821834349, 2952996808, 3210313671, 3336571891, 3584528711,
   113926993, 338241895, 666307205, 773529912, 1294757372,
   1396182291, 1695183700, 1986661051, 2177026350, 2456956037,
   2730485921, 2820302411, 3259730800, 3345764771, 3516065817,
   3600352804, 4094571909, 275423344, 430227734, 506948616,
   659060556, 883997877, 958139571, 1322822218, 1537002063,
   1747873779, 1955562222, 2024104815, 2227730452, 2361852424,
   2428436474, 2756734187, 3204031479, 3329325298]

structure Hash8 where
  a : ℕ
  b : ℕ
  c : ℕ
  d : ℕ
  e : ℕ
  f : ℕ
  g : ℕ
  h : ℕ

/-- The SHA-256 initial hash value. -/
def shaH0 : Hash8 :=
  ⟨1779033703, 3144134277, 1013904242, 2773480762,
   1359893119, 2600822924, 528734635, 1541459225⟩

/-- Extend the 16 block words into the 64-word message schedule
(accumulator kept in reverse). -/
def extendSchedule : ℕ → List ℕ → List ℕ
  | 0, acc => acc
  | k + 1, acc =>
    let g := fun i => acc.getD i 0
    extendSchedule k (w32 (ssig1 (g 1) + g 6 + ssig0 (g 14) + g 15) :: acc)

/-- Full 64-word schedule of a 16-word block, in order. -/
def schedule (block : List ℕ) : List ℕ :=
  (extendSchedule 48 block.reverse).reverse

def roundStep (st : Hash8) (kw : ℕ × ℕ) : Hash8 :=
  let t1 := w32 (st.h + bsig1 st.e + ch32 st.e st.f st.g + kw.1 + kw.2)
  let t2 := w32 (bsig0 st.a + maj32 st.a st.b st.c)
  ⟨w32 (t1 + t2), st.a, st.b, st.c, w32 (st.d + t1), st.e, st.f, st.g⟩

def compress (h : Hash8) (block : List ℕ) : Hash8 :=
  let st := (shaK.zip (schedule block)).foldl roundStep h
  ⟨w32 (h.a + st.a), w32 (h.b + st.b), w32 (h.c + st.c), w32 (h.d + st.d),
   w32 (h.e + st.e), w32 (h.f + st.f), w32 (h.g + st.g), w32 (h.h + st.h)⟩

/-- Split a list into chunks of `n`, driven by fuel so the kernel can
reduce it. -/
def chunksGo (n : ℕ) : ℕ → List ℕ → List (List ℕ)
  | 0, _ => []
  | k + 1, l => l.take n :: chunksGo n k (l.drop n)

/-- Big-endian bytes (length `n`) of a natural number. -/
def beBytes : ℕ → ℕ → List ℕ
  | 0, _ => []
  | k + 1, v => beBytes k (v / 256) ++ [v % 256]

/-- Pack consecutive byte quadruples into big-endian 32-bit words. -/
def toWords : List ℕ → List ℕ
  | b0 :: b1 :: b2 :: b3 :: rest => (((b0 * 256 + b1) * 256 + b2) * 256 + b3) :: toWords rest
  | _ => []

/-- SHA-256 padding: `0x80`, zeros to 56 mod 64, then the bit length as
eight big-endian bytes. -/
def padMessage (msg : List ℕ) : List ℕ :=
  let len := msg.length
  let zeros := (119 - len % 64) % 64
  msg ++ 0x80 :: List.replicate zeros 0 ++ beBytes 8 (len * 8)

def sha256Words (msg : List ℕ) : List ℕ :=
  let padded := padMessage msg
  let blocks := chunksGo 64 (padded.length / 64) padded
  let hFinal := blocks.foldl (fun h b => compress h (toWords b)) shaH0
  [hFinal.a, hFinal.b, hFinal.c, hFinal.d, hFinal.e, hFinal.f, hFinal.g, hFinal.h]

def hexDigit (n : ℕ) : Char :=
  if n < 10 then Char.ofNat (48 + n) else Char.ofNat (87 + n)

def hexWord (w : ℕ) : List Char :=
  (List.range 8).map fun i => hexDigit (w / 16 ^ (7 - i) % 16)

/-- Lowercase hex digest of a byte sequence, as `hashlib.sha256(..).hexdigest()`. -/
def sha256hexBytes (msg : List ℕ) : String :=
  ⟨(sha256Words msg).flatMap hexWord⟩

/-- Code points of a string. The strings the services hash are serialized
with `ensure_ascii`, so every character is ASCII and the UTF-8 bytes are
exactly the code points. -/
def asciiBytes (s : String) : List ℕ := s.data.map Char.toNat

def sha256hex (s : String) : String := sha256hexBytes (asciiBytes s)

/-- Sanity check against the FIPS 180 test vector for "abc". -/
theorem sha256hex_abc :
    sha256hex "abc" = "ba7816bf8f01cfea414140de5dae2223b00361a396177a9cb410ff61f20015ad" := by
  decide

/-! ## JSON serialization

`json.dumps(payload, sort_keys=True, separators=(",", ":"))` with the
default `ensure_ascii=True`: keys in sorted order, no whitespace, every
non-printable or non-ASCII character escaped. -/

def hexDigitsBE (digits v : ℕ) : List Char :=
  (List.range digits).map fun i => hexDigit (v / 16 ^ (digits - 1 - i) % 16)

/-- The escape of one character in a Python `json.dumps` (ASCII mode)
string literal. -/
def jsonEscapeChar (c : Char) : List Char :=
  if c = '"' then ['\\', '"']
  else if c = '\\' then ['\\', '\\']
  else if c = '\n' then ['\\', 'n']
  else if c = '\x0d' then ['\\', 'r']
  else if c = '\t' then ['\\', 't']
  else if c = '\x08' then ['\\', 'b']
  else if c = '\x0c' then ['\\', 'f']
  else if 32 ≤ c.toNat ∧ c.toNat ≤ 126 then [c]
  else if c.toNat < 65536 then '\\' :: 'u' :: hexDigitsBE 4 c.toNat
  else
    let v := c.toNat - 65536
    ('\\' :: 'u' :: hexDigitsBE 4 (55296 + v / 1024)) ++
      ('\\' :: 'u' :: hexDigitsBE 4 (56320 + v % 1024))

/-- A JSON string literal with its quotes. -/
def jsonQuote (s : String) : List Char :=
  '"' :: s.data.flatMap jsonEscapeChar ++ ['"']

/-- A JSON integer-or-null value. -/
def jsonOptInt (o : Option ℤ) : List Char :=
  match o with
  | none => "null".data
  | some n => (toString n).data

end Diagnosis

namespace Diagnosis

/-! ## Data model

The model classes the services read (`diagnosis/models.py`): only the
fields the services touch are carried. Nullable columns are `Option`. -/

structure Patient where
  age : ℤ
  sex : String
  past_medical_history : Option String
  medications : Option String

structure Visit where
  patient : Patient
  visit_type : String
  visit_number : ℤ
  chief_complaint : String
  symptoms : String
  clinical_notes : Option String

structure Vitals where
  blood_pressure_systolic : Option ℤ
  blood_pressure_diastolic : Option ℤ
  heart_rate : Option ℤ
  respiratory_rate : Option ℤ
  oxygen_saturation : Option ℚ
  temperature : Option ℚ

structure Labs where
  lab_results : String

/-! ## CaseFingerprintService (`services/case_fingerprint_service.py`) -/

namespace CaseFingerprintService

/-- `_normalize_text`: `""` for `None`/empty, else trim, lowercase and
collapse whitespace runs (`" ".join(value.strip().lower().split())`).
`Char.toLower` lowers the ASCII range; Python's Unicode lowering of
non-ASCII letters is not modelled. -/
def normalize_text (value : Option String) : String :=
  match value with
  | none => ""
  | some s =>
    if s.data = [] then ""
    else ⟨joinSpace (pySplit (s.data.map Char.toLower))⟩

/-- `_bucket`: `int(round(float(value) / step) * step)`, `None` passed
through. -/
def bucket (value : Option ℚ) (step : ℤ := 5) : Option ℤ :=
  value.map fun q => pyRound (q / (step : ℚ)) * step

/-- The `vitals` sub-dictionary of the fingerprint payload. -/
structure VitalsPayload where
  bp_sys : Option ℤ
  bp_dia : Option ℤ
  heart_rate : Option ℤ
  resp_rate : Option ℤ
  spo2 : Option ℤ
  temperature : Option ℤ
deriving DecidableEq

/-- The fingerprint payload dictionary; `vitals = none` stands for the
empty sub-dictionary built when no vitals row is passed. -/
structure Payload where
  age_bucket : Option ℤ
  sex : String
  chief_complaint : String
  symptoms : String
  history : String
  medications : String
  notes : String
  vitals : Option VitalsPayload
  labs : String
deriving DecidableEq

/-- `build_payload(visit, vitals, labs)`. -/
def build_payload (visit : Visit) (vitals : Option Vitals) (labs : Option Labs) : Payload :=
  let patient := visit.patient
  let vitals_payload : Option VitalsPayload := vitals.map fun v =>
    { bp_sys := bucket (v.blood_pressure_systolic.map fun n => (n : ℚ))
      bp_dia := bucket (v.blood_pressure_diastolic.map fun n => (n : ℚ))
      heart_rate := bucket (v.heart_rate.map fun n => (n : ℚ))
      resp_rate := bucket (v.respiratory_rate.map fun n => (n : ℚ))
      spo2 := bucket v.oxygen_saturation 1
      temperature := bucket v.temperature 1 }
  let labs_payload :=
    match labs with
    | some l => if l.lab_results.data = [] then "" else normalize_text (some l.lab_results)
    | none => ""
  { age_bucket := bucket (some (patient.age : ℚ))
    sex := patient.sex
    chief_complaint := normalize_text (some visit.chief_complaint)
    symptoms := normalize_text (some visit.symptoms)
    history := normalize_text patient.past_medical_history
    medications := normalize_text patient.medications
    notes := normalize_text visit.clinical_notes
    vitals := vitals_payload
    labs := labs_payload }

/-- Serialization of the vitals sub-dictionary (keys in sorted order,
compact separators). -/
def serializeVitals (vp : Option VitalsPayload) : List Char :=
  match vp with
  | none => ['\x7b', '\x7d']
  | some v =>
    '\x7b' :: ("\"bp_dia\":".data ++ jsonOptInt v.bp_dia
      ++ ",\"bp_sys\":".data ++ jsonOptInt v.bp_sys
      ++ ",\"heart_rate\":".data ++ jsonOptInt v.heart_rate
      ++ ",\"resp_rate\":".data ++ jsonOptInt v.resp_rate
      ++ ",\"spo2\":".data ++ jsonOptInt v.spo2
      ++ ",\"temperature\":".data ++ jsonOptInt v.temperature) ++ ['\x7d']

/-- `json.dumps(payload, sort_keys=True, separators=(",", ":"))`. -/
def serializePayload (p : Payload) : String :=
  ⟨'\x7b' :: ("\"age_bucket\":".data ++ jsonOptInt p.age_bucket
    ++ ",\"chief_complaint\":".data ++ jsonQuote p.chief_complaint
    ++ ",\"history\":".data ++ jsonQuote p.history
    ++ ",\"labs\":".data ++ jsonQuote p.labs
    ++ ",\"medications\":".data ++ jsonQuote p.medications
    ++ ",\"notes\":".data ++ jsonQuote p.notes
    ++ ",\"sex\":".data ++ jsonQuote p.sex
    ++ ",\"symptoms\":".data ++ jsonQuote p.symptoms
    ++ ",\"vitals\":".data ++ serializeVitals p.vitals) ++ ['\x7d']⟩

/-- `generate(visit, vitals, labs)`: the SHA-256 hex digest of the
canonical serialization of the payload. -/
def generate (visit : Visit) (vitals : Option Vitals := none) (labs : Option Labs := none) :
    String :=
  sha256hex (serializePayload (build_payload visit vitals labs))

end CaseFingerprintService

end Diagnosis

namespace Diagnosis

/-! ## Claim C1: bucket tolerance of the fingerprint -/

/-- The numeric fields of the fingerprint payload that are bucketed. -/
inductive VitalField
  | bp_sys
  | bp_dia
  | heart_rate
  | resp_rate
  | spo2
  | temperature
  | age

/-- The bucket step the fingerprint service uses for each numeric field. -/
def stepOf : VitalField → ℤ
  | .spo2 => 1
  | .temperature => 1
  | _ => 5

/-- Replace one numeric field of a presentation by an integer value. -/
def setVital (visit : Visit) (vt : Vitals) : VitalField → ℤ → Visit × Vitals
  | .bp_sys, x => (visit, { vt with blood_pressure_systolic := some x })
  | .bp_dia, x => (visit, { vt with blood_pressure_diastolic := some x })
  | .heart_rate, x => (visit, { vt with heart_rate := some x })
  | .resp_rate, x => (visit, { vt with respiratory_rate := some x })
  | .spo2, x => (visit, { vt with oxygen_saturation := some (x : ℚ) })
  | .temperature, x => (visit, { vt with temperature := some (x : ℚ) })
  | .age, x => ({ visit with patient := { visit.patient with age := x } }, vt)

/-- A concrete patient used for concrete evaluations. -/
def exPatient : Patient := ⟨34, "M", none, none⟩

/-- A concrete visit used for concrete evaluations. -/
def exVisit : Visit := ⟨exPatient, "INITIAL", 1, "chest pain", "shortness of breath", none⟩

/-- Concrete vitals with an adjustable heart rate. -/
def exVitals (hr : ℤ) : Vitals := ⟨some 120, some 80, some hr, some 16, some 98, none⟩

/-- Cross-check of the whole fingerprint pipeline against the output of
the Python implementation (`json.dumps(.., sort_keys=True,
separators=(",", ":"))` fed to `hashlib.sha256(..).hexdigest()`) on the
concrete visit above with heart rate 102. -/
theorem generate_matches_python :
    CaseFingerprintService.generate exVisit (some (exVitals 102)) none =
      "a5f1fc17538b8726641729d89bbce21ebb86ac654fed0ac3e5ec04d4814d48b8" := by
  decide

/-- C1 counterexample: heart rates 102 and 103 differ by 1, strictly less
than the bucket step 5, yet round to the buckets 100 and 105, so the
fingerprints differ. -/
theorem fingerprint_substep_change_counterexample :
    CaseFingerprintService.generate exVisit (some (exVitals 102)) none ≠
      CaseFingerprintService.generate exVisit (some (exVitals 103)) none ∧
    (103 - 102 : ℚ) < 5 := by
  constructor
  · decide
  · norm_num

/-- C1 (amended): changing one numeric field leaves the fingerprint
unchanged whenever the value's bucket (the step-multiple nearest to the
value, ties to even) is unchanged — a sub-step change can cross a bucket
boundary and change the fingerprint — while a change of strictly more
than one step always lands in a different bucket. -/
theorem fingerprint_bucket_tolerance :
    (∀ (visit : Visit) (vt : Vitals) (labs : Option Labs) (f : VitalField) (x y : ℤ),
      CaseFingerprintService.bucket (some (x : ℚ)) (stepOf f) =
        CaseFingerprintService.bucket (some (y : ℚ)) (stepOf f) →
      CaseFingerprintService.generate (setVital visit vt f x).1
          (some (setVital visit vt f x).2) labs =
        CaseFingerprintService.generate (setVital visit vt f y).1
          (some (setVital visit vt f y).2) labs) ∧
    (∀ (q r : ℚ) (s : ℤ), 0 < s → (s : ℚ) < |q - r| →
      CaseFingerprintService.bucket (some q) s ≠ CaseFingerprintService.bucket (some r) s) := by
  constructor
  · intro visit vt labs f x y h
    have hp : CaseFingerprintService.build_payload (setVital visit vt f x).1
        (some (setVital visit vt f x).2) labs =
        CaseFingerprintService.build_payload (setVital visit vt f y).1
          (some (setVital visit vt f y).2) labs := by
      cases f <;>
        · simp only [stepOf] at h
          simp only [CaseFingerprintService.build_payload, setVital, Option.map_some]
          simp [h]
    unfold CaseFingerprintService.generate
    rw [hp]
  · intro q r s hs habs h
    have hmul : pyRound (q / (s : ℚ)) * s = pyRound (r / (s : ℚ)) * s := by
      simpa [CaseFingerprintService.bucket] using h
    have hround : pyRound (q / (s : ℚ)) = pyRound (r / (s : ℚ)) :=
      mul_right_cancel₀ (by exact_mod_cast hs.ne') hmul
    have h1 := abs_pyRound_sub_le (q / (s : ℚ))
    have h2 := abs_pyRound_sub_le (r / (s : ℚ))
    have hsq : (0 : ℚ) < (s : ℚ) := by exact_mod_cast hs
    have htri : |q / (s : ℚ) - r / (s : ℚ)| ≤ 1 := by
      have t := abs_sub_le (q / (s : ℚ)) ((pyRound (q / (s : ℚ)) : ℚ)) (r / (s : ℚ))
      have h3 : |q / (s : ℚ) - (pyRound (q / (s : ℚ)) : ℚ)| ≤ 1 / 2 := by
        rw [abs_sub_comm]; exact h1
      have h4 : |(pyRound (q / (s : ℚ)) : ℚ) - r / (s : ℚ)| ≤ 1 / 2 := by
        rw [hround]; exact h2
      linarith
    have hdiv : |q - r| / (s : ℚ) ≤ 1 := by
      have : q / (s : ℚ) - r / (s : ℚ) = (q - r) / (s : ℚ) := by ring
      rw [this, abs_div, abs_of_pos hsq] at htri
      exact htri
    have : |q - r| ≤ (s : ℚ) := by
      rw [div_le_one hsq] at hdiv
      exact hdiv
    linarith

/-- Closed instance of `fingerprint_bucket_tolerance`: heart rates 101 and
99 share the bucket 100 and give equal fingerprints; values 0 and 6 are
more than one step of 5 apart and land in different buckets. -/
theorem fingerprint_bucket_tolerance_witness :
    (CaseFingerprintService.generate (setVital exVisit (exVitals 0) .heart_rate 101).1
        (some (setVital exVisit (exVitals 0) .heart_rate 101).2) none =
      CaseFingerprintService.generate (setVital exVisit (exVitals 0) .heart_rate 99).1
        (some (setVital exVisit (exVitals 0) .heart_rate 99).2) none) ∧
    CaseFingerprintService.bucket (some (0 : ℚ)) 5 ≠
      CaseFingerprintService.bucket (some (6 : ℚ)) 5 :=
  ⟨fingerprint_bucket_tolerance.1 exVisit (exVitals 0) none .heart_rate 101 99 (by decide),
   fingerprint_bucket_tolerance.2 0 6 5 (by norm_num) (by norm_num)⟩

end Diagnosis

namespace Diagnosis

/-! ## LLMService quota bookkeeping (`services/llm_service.py`)

`_claim_usage_slot` runs `get_or_create` for the `LLMUsage` row of one
(model, API-key fingerprint, day) triple and then an atomic conditional
update `filter(count < limit).update(count = count + 1)`. All calls for a
fixed triple serialize on that row, so the embedding threads the row state
(`none` when the row does not exist yet, `some c` for a row with count
`c`) through one call at a time. -/

namespace LLMService

/-- The model cascade, in fallback order. -/
def model_cascade : List String :=
  ["llama-3.3-70b-versatile", "qwen/qwen3-32b", "llama-3.1-8b-instant"]

/-- `self.model_limits.get(model_name)`: the per-model daily ceiling. -/
def model_limits (name : String) : Option ℕ :=
  if name = "llama-3.3-70b-versatile" then some 1000
  else if name = "qwen/qwen3-32b" then some 1000
  else if name = "llama-3.1-8b-instant" then some 14400
  else none

/-- One `_claim_usage_slot` call against the usage row of the call's
(model, key fingerprint, day) triple. `if not limit: return True` fires
for an absent entry and for a ceiling of 0 — before `get_or_create`, so
no row is touched. Otherwise the row is created at count 0 if missing,
and the conditional update increments it only while strictly below the
limit, returning whether a row was updated. -/
def claim_usage_slot (limit : Option ℕ) (row : Option ℕ) : Bool × Option ℕ :=
  match limit with
  | none => (true, row)
  | some l =>
    if l = 0 then (true, row)
    else
      let count := row.getD 0
      if count < l then (true, some (count + 1)) else (false, some count)

/-- A sequence of `n` `_claim_usage_slot` calls for one triple: the list
of returned Booleans and the final row state. -/
def runClaims (limit : Option ℕ) (row : Option ℕ) : ℕ → List Bool × Option ℕ
  | 0 => ([], row)
  | n + 1 =>
    let step := claim_usage_slot limit row
    let rest := runClaims limit step.2 n
    (step.1 :: rest.1, rest.2)

/-- Behaviour of a run that starts at count `c ≤ L`: call `i` succeeds
exactly while the running count stays below `L`, and the final count is
`min (c + n) L`. -/
theorem runClaims_from (L : ℕ) (hL : 0 < L) :
    ∀ (n c : ℕ), c ≤ L →
      (runClaims (some L) (some c) n).1 = (List.range n).map (fun i => decide (c + i < L)) ∧
      (runClaims (some L) (some c) n).2 = some (min (c + n) L) := by
  intro n
  induction n with
  | zero =>
    intro c hc
    simp [runClaims, Nat.min_eq_left hc]
  | succ n ih =>
    intro c hc
    have hL0 : L ≠ 0 := hL.ne'
    by_cases hcl : c < L
    · have step : claim_usage_slot (some L) (some c) = (true, some (c + 1)) := by
        simp [claim_usage_slot, hL0, hcl]
      obtain ⟨ih1, ih2⟩ := ih (c + 1) hcl
      constructor
      · simp only [runClaims, step, ih1, List.range_succ_eq_map, List.map_cons, List.map_map, List.cons.injEq]
        constructor
        · simp [hcl]
        · apply List.map_congr_left
          intro i _
          simp [Function.comp]
          omega
      · simp only [runClaims, step, ih2]
        congr 1
        omega
    · have hceq : c = L := le_antisymm hc (not_lt.mp hcl)
      have step : claim_usage_slot (some L) (some c) = (false, some c) := by
        simp [claim_usage_slot, hL0, hcl]
      obtain ⟨ih1, ih2⟩ := ih c hc
      constructor
      · simp only [runClaims, step, ih1, List.range_succ_eq_map, List.map_cons, List.map_map, List.cons.injEq]
        constructor
        · simp [hcl]
        · apply List.map_congr_left
          intro i _
          simp [Function.comp]
          omega
      · simp only [runClaims, step, ih2]
        congr 1
        omega

/-- Claim C2: for a model with a configured positive daily ceiling `L`,
one `_claim_usage_slot` call returns `True` and increments the counter by
exactly one iff the counter is strictly below `L`, and otherwise returns
`False` leaving it unchanged; across a run of `n` calls starting with no
row (count 0), exactly the first `min n L` calls succeed and the final
counter is `min n L ≤ L`. -/
theorem claim_usage_slot_quota (L : ℕ) (hL : 0 < L) :
    (∀ c : ℕ, claim_usage_slot (some L) (some c) =
      if c < L then (true, some (c + 1)) else (false, some c)) ∧
    (∀ n : ℕ,
      (runClaims (some L) none n).1 = (List.range n).map (fun i => decide (i < L)) ∧
      (runClaims (some L) none n).2.getD 0 = min n L ∧ min n L ≤ L) := by
  constructor
  · intro c
    by_cases hcl : c < L <;> simp [claim_usage_slot, hL.ne', hcl]
  · intro n
    match n with
    | 0 => simp [runClaims]
    | n + 1 =>
      have step : claim_usage_slot (some L) none = (true, some 1) := by
        simp [claim_usage_slot, hL.ne', hL]
      obtain ⟨h1, h2⟩ := runClaims_from L hL n 1 hL
      refine ⟨?_, ?_, min_le_right _ _⟩
      · simp only [runClaims, step, h1, List.range_succ_eq_map, List.map_cons, List.map_map, List.cons.injEq]
        constructor
        · simp [hL]
        · apply List.map_congr_left
          intro i _
          simp [Function.comp]
          omega
      · simp only [runClaims, step, h2]
        simp only [Option.getD_some]
        omega

/-- Closed instance of `claim_usage_slot_quota` at ceiling 2 and three
calls: the first two succeed, the third fails, the counter ends at 2. -/
theorem claim_usage_slot_quota_witness :
    (runClaims (some 2) none 3).1 = (List.range 3).map (fun i => decide (i < 2)) ∧
    (runClaims (some 2) none 3).2.getD 0 = min 3 2 ∧ min 3 2 ≤ 2 :=
  (claim_usage_slot_quota 2 (by decide)).2 3

/-- Claim C9: a model with no entry in `model_limits`, or with a ceiling
of 0, makes `_claim_usage_slot` return `True` without creating or
incrementing any usage row — `if not limit` treats a 0 ceiling as
unlimited rather than as forbidding calls. -/
theorem claim_usage_slot_unlimited (name : String) (row : Option ℕ)
    (h : model_limits name = none ∨ model_limits name = some 0) :
    claim_usage_slot (model_limits name) row = (true, row) := by
  rcases h with h | h <;> rw [h] <;> simp [claim_usage_slot]

/-- Closed instance of `claim_usage_slot_unlimited`: an unconfigured
model name passes through with the usage row untouched. -/
theorem claim_usage_slot_unlimited_witness :
    claim_usage_slot (model_limits "gpt-oss-120b") (some 5) = (true, some 5) :=
  claim_usage_slot_unlimited "gpt-oss-120b" (some 5) (Or.inl (by decide))

end LLMService

end Diagnosis

namespace Diagnosis

namespace LLMService

/-! ## The gateway cascade (`_call_llm_with_retry`)

The provider is external: an environment assigns to every
(model index, key index, attempt index) triple the outcome of the slot
claim and of the network call, and the embedding replays the nested
model / key / retry loops against it, recording every slot claim and
every call made as an event trace. -/

/-- Outcome of one provider call. `quota` is the classification of the
raised error by `_is_quota_error`. -/
inductive CallOutcome
  | success (content : String)
  | failure (quota : Bool) (msg : String)

/-- The external world of the retry loop: per-(model, key, attempt) slot
claim results and call outcomes. -/
structure GatewayEnv where
  slot : ℕ → ℕ → ℕ → Bool
  call : ℕ → ℕ → ℕ → CallOutcome

/-- Observable events of the retry loop, in order. -/
inductive GatewayEvent
  | claimSlot (model key attempt : ℕ)
  | callMade (model key attempt : ℕ)
deriving DecidableEq

/-- How the `while attempt < max_retries` loop for one (model, key) pair
ends. -/
inductive AttemptExit
  | done (content : String)
  | quotaMove (lastError : String)
  | raised (msg : String)
  | noRuns

/-- `f"Daily quota reached for {model_name} using API key #{key_index + 1}"`. -/
def quotaReachedMsg (mName : String) (kIdx : ℕ) : String :=
  "Daily quota reached for " ++ mName ++ " using API key #" ++ toString (kIdx + 1)

/-- The message of the exception raised when non-quota retries are
exhausted. -/
def retriesExhaustedMsg (maxRetries : ℕ) (mName : String) (kIdx : ℕ) (msg : String) : String :=
  "LLM call failed after " ++ toString maxRetries ++ " attempts using " ++ mName ++
    " (API key #" ++ toString (kIdx + 1) ++ "): " ++ msg

/-- The retry loop for one (model, key) pair, starting at `attempt` with
`remaining = max_retries - attempt` iterations left. Each iteration
claims a slot; a denied slot or a quota-classified error breaks to the
next key, a non-quota error sleeps and retries until the retry budget is
spent and then raises out of the whole cascade, a successful call
returns. -/
def attemptLoop (env : GatewayEnv) (maxRetries mIdx kIdx : ℕ) (mName : String) :
    ℕ → ℕ → AttemptExit × List GatewayEvent
  | _, 0 => (.noRuns, [])
  | attempt, remaining + 1 =>
    if env.slot mIdx kIdx attempt = false then
      (.quotaMove (quotaReachedMsg mName kIdx), [.claimSlot mIdx kIdx attempt])
    else
      match env.call mIdx kIdx attempt with
      | .success c =>
        (.done c, [.claimSlot mIdx kIdx attempt, .callMade mIdx kIdx attempt])
      | .failure true msg =>
        (.quotaMove msg, [.claimSlot mIdx kIdx attempt, .callMade mIdx kIdx attempt])
      | .failure false msg =>
        if remaining = 0 then
          (.raised (retriesExhaustedMsg maxRetries mName kIdx msg),
           [.claimSlot mIdx kIdx attempt, .callMade mIdx kIdx attempt])
        else
          let rest := attemptLoop env maxRetries mIdx kIdx mName (attempt + 1) remaining
          (rest.1, .claimSlot mIdx kIdx attempt :: .callMade mIdx kIdx attempt :: rest.2)

/-- How the key loop for one model ends. -/
inductive CascadeOutcome
  | success (content : String)
  | raised (msg : String)
  | exhausted (lastError : Option String)

/-- The `for key_index, api_key in enumerate(self.api_keys)` loop for one
model: `kIdx` is the current index, `left` the number of keys not yet
tried, `last` the running `last_error`. -/
def tryKeysFrom (env : GatewayEnv) (maxRetries mIdx : ℕ) (mName : String) :
    ℕ → ℕ → Option String → CascadeOutcome × List GatewayEvent
  | _, 0, last => (.exhausted last, [])
  | kIdx, left + 1, last =>
    let att := attemptLoop env maxRetries mIdx kIdx mName 0 maxRetries
    match att.1 with
    | .done c => (.success c, att.2)
    | .raised msg => (.raised msg, att.2)
    | .quotaMove msg =>
      let rest := tryKeysFrom env maxRetries mIdx mName (kIdx + 1) left (some msg)
      (rest.1, att.2 ++ rest.2)
    | .noRuns =>
      let rest := tryKeysFrom env maxRetries mIdx mName (kIdx + 1) left last
      (rest.1, att.2 ++ rest.2)

/-- The final exception message after all models and keys are exhausted. -/
def allExhaustedMsg (last : Option String) : String :=
  "LLM call failed after exhausting all configured models and API keys: " ++
    (match last with
     | some e => e
     | none => "unknown error")

/-- The `for model_index, model_name in enumerate(self.model_cascade)`
loop. -/
def tryModelsFrom (env : GatewayEnv) (maxRetries numKeys : ℕ) :
    List String → ℕ → Option String → Except String String × List GatewayEvent
  | [], _, last => (.error (allExhaustedMsg last), [])
  | mName :: rest, mIdx, last =>
    let keys := tryKeysFrom env maxRetries mIdx mName 0 numKeys last
    match keys.1 with
    | .success c => (.ok c, keys.2)
    | .raised msg => (.error msg, keys.2)
    | .exhausted last2 =>
      let next := tryModelsFrom env maxRetries numKeys rest (mIdx + 1) last2
      (next.1, keys.2 ++ next.2)

/-- `_call_llm_with_retry`: replay the cascade over `models` with
`numKeys` configured API keys against the environment; the result is the
returned content or the raised exception's message, paired with the
event trace. -/
def call_llm_with_retry (env : GatewayEnv) (maxRetries : ℕ) (models : List String)
    (numKeys : ℕ) : Except String String × List GatewayEvent :=
  tryModelsFrom env maxRetries numKeys models 0 none

/-- Claim C5: a quota-related failure (denied slot or quota-classified
error) of the retry loop for model `m` with credential `i` makes the
very next attempt use credential `i + 1` with the same model `m` — if
that attempt claims its slot and succeeds, its response is returned with
no retry of credential `i` and no later credential or model consulted.
In particular (second conjunct), when credential 1 quota-fails and
credential 2 succeeds for the first cascade model, the gateway returns
credential 2's response for that model and the entire event trace is the
four expected events. -/
theorem gateway_cascade_quota_next_key :
    (∀ (env : GatewayEnv) (maxRetries mIdx kIdx left : ℕ) (mName : String)
       (last : Option String) (msg c : String) (tr : List GatewayEvent),
      attemptLoop env maxRetries mIdx kIdx mName 0 maxRetries = (.quotaMove msg, tr) →
      env.slot mIdx (kIdx + 1) 0 = true →
      env.call mIdx (kIdx + 1) 0 = .success c →
      tryKeysFrom env maxRetries mIdx mName kIdx (left + 2) last =
        (.success c, tr ++ [.claimSlot mIdx (kIdx + 1) 0, .callMade mIdx (kIdx + 1) 0])) ∧
    (∀ (env : GatewayEnv) (maxRetries : ℕ) (m1 : String) (rest : List String)
       (numKeys : ℕ) (msg c : String),
      0 < maxRetries → 2 ≤ numKeys →
      env.slot 0 0 0 = true → env.call 0 0 0 = .failure true msg →
      env.slot 0 1 0 = true → env.call 0 1 0 = .success c →
      call_llm_with_retry env maxRetries (m1 :: rest) numKeys =
        (.ok c, [.claimSlot 0 0 0, .callMade 0 0 0, .claimSlot 0 1 0, .callMade 0 1 0])) := by
  constructor
  · intro env maxRetries mIdx kIdx left mName last msg c tr hatt hslot hcall
    match maxRetries, hatt with
    | 0, hatt => simp [attemptLoop] at hatt
    | r + 1, hatt =>
      unfold tryKeysFrom
      rw [hatt]
      unfold tryKeysFrom
      simp [attemptLoop, hslot, hcall]
  · intro env maxRetries m1 rest numKeys msg c hr hk hslot0 hcall0 hslot1 hcall1
    obtain ⟨r, rfl⟩ : ∃ r, maxRetries = r + 1 := ⟨maxRetries - 1, by omega⟩
    obtain ⟨k, rfl⟩ : ∃ k, numKeys = k + 2 := ⟨numKeys - 2, by omega⟩
    simp [call_llm_with_retry, tryModelsFrom, tryKeysFrom, attemptLoop,
      hslot0, hcall0, hslot1, hcall1]

/-- Closed instance of `gateway_cascade_quota_next_key`: two models, two
keys, key 1 rate-limited, key 2 succeeding. -/
theorem gateway_cascade_quota_next_key_witness :
    (tryKeysFrom
        ⟨fun _ _ _ => true,
         fun _ k _ => if k = 0 then .failure true "Rate limit reached (429)" else .success "ok"⟩
        3 0 "llama-3.3-70b-versatile" 0 2 none =
      (.success "ok", [.claimSlot 0 0 0, .callMade 0 0 0] ++
        [.claimSlot 0 1 0, .callMade 0 1 0])) ∧
    call_llm_with_retry
      ⟨fun _ _ _ => true,
       fun _ k _ => if k = 0 then .failure true "Rate limit reached (429)" else .success "ok"⟩
      3 ["llama-3.3-70b-versatile", "qwen/qwen3-32b"] 2 =
      (.ok "ok", [.claimSlot 0 0 0, .callMade 0 0 0, .claimSlot 0 1 0, .callMade 0 1 0]) :=
  ⟨gateway_cascade_quota_next_key.1 _ 3 0 0 0 "llama-3.3-70b-versatile" none
      "Rate limit reached (429)" "ok" [.claimSlot 0 0 0, .callMade 0 0 0] rfl rfl rfl,
   gateway_cascade_quota_next_key.2 _ 3 _ _ 2 "Rate limit reached (429)" "ok"
      (by decide) (by decide) rfl rfl rfl rfl⟩

end LLMService

end Diagnosis

namespace Diagnosis

namespace LLMService

/-! ## Response post-processing (`generate_diagnosis`)

The JSON text parser (`json.loads`) and the float constructor
(`float(...)` on strings) are Python-library collaborators, passed in as
parameters; Python values appearing in the parsed response are embedded
as a small JSON value type, and the dynamic-type errors Python raises on
ill-typed payloads become `Except.error` messages that the final
`except Exception` clause turns into the degraded fallback payload. -/

/-- Embedded Python/JSON values. -/
inductive Json where
  | null
  | bool (b : Bool)
  | num (q : ℚ)
  | str (s : String)
  | arr (elems : List Json)
  | obj (fields : List (String × Json))

/-- `listIsPre a b`: `a` is a leading segment of `b`. -/
def listIsPre : List Char → List Char → Bool
  | [], _ => true
  | _ :: _, [] => false
  | x :: xs, y :: ys => x = y && listIsPre xs ys

/-- Python `needle in hay` for strings: contiguous-substring test. -/
def listHasSub (needle : List Char) : List Char → Bool
  | [] => needle.isEmpty
  | c :: rest => listIsPre needle (c :: rest) || listHasSub needle rest

def strContains (hay needle : String) : Bool := listHasSub needle.data hay.data

/-- Python `hay.find(needle, start)` scanning from position `i`. -/
def pyFindFrom (needle : List Char) : List Char → ℕ → Option ℕ
  | [], i => if needle.isEmpty then some i else none
  | c :: rest, i =>
    if listIsPre needle (c :: rest) then some i else pyFindFrom needle rest (i + 1)

/-- Python slice `l[a:b]` with a possibly negative end index. -/
def pySlice (l : List Char) (a : ℕ) (b : ℤ) : List Char :=
  let stop : ℕ := if b < 0 then (l.length : ℤ).toNat - (-b).toNat else b.toNat
  (l.take stop).drop a

/-- Python `str.strip()`. -/
def pyStrip (l : List Char) : List Char :=
  ((l.dropWhile isPyWs).reverse.dropWhile isPyWs).reverse

/-- The code-fence stripping of `generate_diagnosis`: cut the text
between a ```json (or bare ```) fence and the next fence, then strip
whitespace; the slice end is `find`'s `-1` when no closing fence exists. -/
def stripFences (s : String) : String :=
  let cs := s.data
  if strContains s "```json" then
    let start := (pyFindFrom "```json".data cs 0).getD 0 + 7
    let stop : ℤ :=
      match pyFindFrom "```".data (cs.drop start) 0 with
      | some j => (start : ℤ) + j
      | none => -1
    ⟨pyStrip (pySlice cs start stop)⟩
  else if strContains s "```" then
    let start := (pyFindFrom "```".data cs 0).getD 0 + 3
    let stop : ℤ :=
      match pyFindFrom "```".data (cs.drop start) 0 with
      | some j => (start : ℤ) + j
      | none => -1
    ⟨pyStrip (pySlice cs start stop)⟩
  else s

/-- First binding of `key` in a field list (dict keys are unique). -/
def jLookup : List (String × Json) → String → Option Json
  | [], _ => none
  | (k, v) :: rest, key => if k = key then some v else jLookup rest key

/-- Read `j[key]` on the result of `json.loads`: in Python a dict lookup,
a `KeyError`/`TypeError` (modelled as `Except.error`) otherwise. -/
def jIndex (j : Json) (key : String) : Except String Json :=
  match j with
  | .obj fields =>
    match jLookup fields key with
    | some v => .ok v
    | none => .error ("KeyError: " ++ key)
  | _ => .error "TypeError: indices must be integers"

/-- Write `j[key] = v`: replace the binding in a dict, a `TypeError`
otherwise. -/
def jAssign (j : Json) (key : String) (v : Json) : Except String Json :=
  match j with
  | .obj fields => .ok (.obj (fields.map fun kv => if kv.1 = key then (kv.1, v) else kv))
  | _ => .error "TypeError: indices must be integers"

/-- Python `field in j` on the parsed result: key test on a dict, element
test on a list, substring test on a string, `TypeError` on
non-iterables. -/
def jContains (j : Json) (field : String) : Except String Bool :=
  match j with
  | .obj fields => .ok (fields.any fun kv => kv.1 = field)
  | .arr elems =>
    .ok (elems.any fun e =>
      match e with
      | .str s => s = field
      | _ => false)
  | .str s => .ok (strContains s field)
  | _ => .error "TypeError: argument is not iterable"

/-- Python `float(x)` on a JSON value; string parsing is the
collaborator `pyFloat`. -/
def jFloat (pyFloat : String → Except String ℚ) : Json → Except String ℚ
  | .num q => .ok q
  | .bool b => .ok (if b then 1 else 0)
  | .str s => pyFloat s
  | _ => .error "TypeError: float() argument must be a string or a real number"

def disclaimerText : String :=
  "This is clinical decision support only. Final diagnosis and treatment decisions must be made by qualified healthcare professionals."

/-- The fallback payload of the `json.JSONDecodeError` handler. -/
def parseFallback (msg : String) : Json :=
  .obj
    [("differential_diagnoses",
      .arr [.obj
        [("diagnosis", .str "Unable to generate diagnosis"),
         ("likelihood", .num 0),
         ("reasoning", .str "LLM response could not be parsed")]]),
     ("triage_level", .str "MEDIUM"),
     ("explanation", .str ("Error parsing LLM response: " ++ msg)),
     ("confidence_score", .num 0),
     ("disclaimer", .str disclaimerText)]

/-- The fallback payload of the generic `except Exception` handler. -/
def errorFallback (msg : String) : Json :=
  .obj
    [("differential_diagnoses",
      .arr [.obj
        [("diagnosis", .str "Error generating diagnosis"),
         ("likelihood", .num 0),
         ("reasoning", .str msg)]]),
     ("triage_level", .str "MEDIUM"),
     ("explanation", .str ("Error: " ++ msg)),
     ("confidence_score", .num 0),
     ("disclaimer", .str disclaimerText)]

/-- `result['triage_level'] in valid_triage`: true only for the four
valid triage strings. -/
def validTriage (j : Json) : Bool :=
  match j with
  | .str s => s = "LOW" || s = "MEDIUM" || s = "HIGH" || s = "CRITICAL"
  | _ => false

/-- Field validation and coercion applied to the parsed response: the
required-field loop, triage-level coercion to MEDIUM, and
confidence-score coercion to 0.5 when outside [0, 1]. -/
def validateResult (pyFloat : String → Except String ℚ) (result : Json) :
    Except String Json := do
  let c1 ← jContains result "differential_diagnoses"
  if ¬ c1 then throw "Missing required field: differential_diagnoses"
  let c2 ← jContains result "triage_level"
  if ¬ c2 then throw "Missing required field: triage_level"
  let c3 ← jContains result "explanation"
  if ¬ c3 then throw "Missing required field: explanation"
  let c4 ← jContains result "confidence_score"
  if ¬ c4 then throw "Missing required field: confidence_score"
  let tv ← jIndex result "triage_level"
  let result ← if validTriage tv then pure result else jAssign result "triage_level" (.str "MEDIUM")
  let cs ← jIndex result "confidence_score"
  let confidence ← jFloat pyFloat cs
  let result ←
    if confidence < 0 ∨ 1 < confidence then jAssign result "confidence_score" (.num (1 / 2))
    else pure result
  return result

/-- `generate_diagnosis` after the gateway call returned `response_text`:
strip fences, parse, validate; a parse failure yields the parse fallback
payload, any other failure the generic fallback payload — the function
is total and never propagates an exception. -/
def generate_diagnosis (parse : String → Except String Json)
    (pyFloat : String → Except String ℚ) (response_text : String) : Json :=
  let stripped := stripFences response_text
  match parse stripped with
  | .error e => parseFallback e
  | .ok result =>
    match validateResult pyFloat result with
    | .ok r => r
    | .error e => errorFallback e

/-- A string always contains itself as a substring of any extension on
the left. -/
theorem listHasSub_append_self (pre n : List Char) : listHasSub n (pre ++ n) = true := by
  induction pre with
  | nil =>
    cases n with
    | nil => rfl
    | cons c rest =>
      simp only [List.nil_append, listHasSub]
      have : listIsPre (c :: rest) (c :: rest) = true := by
        clear * -
        induction rest with
        | nil => simp [listIsPre]
        | cons d ds ih => simpa [listIsPre] using ih
      simp [this]
  | cons c cs ih =>
    have ih2 : listHasSub n (cs.append n) = true := ih
    simp only [List.cons_append, listHasSub, ih2, Bool.or_true]

end LLMService

end Diagnosis

namespace Diagnosis

namespace LLMService

/-- Claim C4: when the gateway's response text does not parse as JSON
(after fence stripping), `generate_diagnosis` does not raise and returns
the degraded payload: triage level MEDIUM, confidence score 0.0, and a
non-empty explanation containing the parse-error message. -/
theorem generate_diagnosis_parse_fallback
    (parse : String → Except String Json) (pyFloat : String → Except String ℚ)
    (text e : String) (h : parse (stripFences text) = .error e) :
    jIndex (generate_diagnosis parse pyFloat text) "triage_level" = .ok (.str "MEDIUM") ∧
    jIndex (generate_diagnosis parse pyFloat text) "confidence_score" = .ok (.num 0) ∧
    jIndex (generate_diagnosis parse pyFloat text) "explanation" =
      .ok (.str ("Error parsing LLM response: " ++ e)) ∧
    ("Error parsing LLM response: " ++ e) ≠ "" ∧
    strContains ("Error parsing LLM response: " ++ e) e = true := by
  have hout : generate_diagnosis parse pyFloat text = parseFallback e := by
    unfold generate_diagnosis
    simp only []
    rw [h]
  refine ⟨?_, ?_, ?_, ?_, ?_⟩
  · rw [hout]; rfl
  · rw [hout]; rfl
  · rw [hout]; rfl
  · intro hh
    have hd := congrArg String.data hh
    rw [String.data_append] at hd
    simp at hd
  · show listHasSub e.data ("Error parsing LLM response: " ++ e).data = true
    rw [String.data_append]
    exact listHasSub_append_self _ _

/-- Closed instance of `generate_diagnosis_parse_fallback` for a parser
that rejects a non-JSON response. -/
theorem generate_diagnosis_parse_fallback_witness :
    jIndex
        (generate_diagnosis (fun _ => .error "Expecting value: line 1 column 1 (char 0)")
          (fun _ => .error "not a float") "I am not JSON")
        "triage_level" = .ok (.str "MEDIUM") ∧
    jIndex
        (generate_diagnosis (fun _ => .error "Expecting value: line 1 column 1 (char 0)")
          (fun _ => .error "not a float") "I am not JSON")
        "confidence_score" = .ok (.num 0) ∧
    jIndex
        (generate_diagnosis (fun _ => .error "Expecting value: line 1 column 1 (char 0)")
          (fun _ => .error "not a float") "I am not JSON")
        "explanation" =
      .ok (.str ("Error parsing LLM response: " ++ "Expecting value: line 1 column 1 (char 0)")) ∧
    ("Error parsing LLM response: " ++ "Expecting value: line 1 column 1 (char 0)") ≠ "" ∧
    strContains ("Error parsing LLM response: " ++ "Expecting value: line 1 column 1 (char 0)")
      "Expecting value: line 1 column 1 (char 0)" = true :=
  generate_diagnosis_parse_fallback _ _ "I am not JSON"
    "Expecting value: line 1 column 1 (char 0)" rfl

end LLMService

end Diagnosis

namespace Diagnosis

/-! ## DiagnosisJobService (`services/job_service.py`)

`_process_job` fetches the job, no-ops on terminal statuses, re-persists
the fingerprint if the stored one is stale, and then runs the pipeline
inside a `try` whose `except` records the failure on the job. Database
saves and the pipeline phases are fallible collaborators supplied by an
environment; a save that raises leaves the stored row unchanged. The
fingerprint-persisting save sits *before* the `try`, and the
failure-recording save sits *inside* the `except` clause, so an
exception from either one propagates out of `_process_job` (the worker
pool swallows it) without any status transition. -/

namespace DiagnosisJobService

inductive JobStatus
  | PENDING
  | PROCESSING
  | COMPLETED
  | FAILED
deriving DecidableEq

/-- The stored `DiagnosisJob` row (the fields `_process_job` touches). -/
structure Job where
  status : JobStatus
  case_fingerprint : String
  error_message : Option String
  reuse_source : Option ℕ
  diagnosis : Option ℕ
deriving DecidableEq

/-- Outcomes of the collaborators `_process_job` invokes, in program
order. `fpSave` is the pre-`try` `job.save` of a recomputed fingerprint;
`summaryPhase` is summary generation, embedding and (retried) summary
persistence; `existingResult` is the id of the newest `DiagnosisResult`
with the job's fingerprint; `failSave` is the `job.save` inside the
`except` clause. -/
structure ProcEnv where
  computedFingerprint : String
  fpSave : Except String Unit
  summaryPhase : Except String Unit
  existingResult : Option ℕ
  cloneId : ℕ
  reuseSave : Except String Unit
  processingSave : Except String Unit
  retrievalPhase : Except String (List String)
  llmPhase : Except String Unit
  resultId : ℕ
  resultSave : Except String Unit
  completeSave : Except String Unit
  failSave : Except String Unit

/-- The body of the `try` block (lines 48–116): either the final stored
job on success, or the raised message together with the stored job at
the moment of the exception. -/
def tryPhases (job : Job) (env : ProcEnv) : Except (String × Job) Job :=
  match env.summaryPhase with
  | .error e => .error (e, job)
  | .ok _ =>
    match env.existingResult with
    | some rid =>
      match env.reuseSave with
      | .error e => .error (e, job)
      | .ok _ =>
        .ok { job with reuse_source := some rid, diagnosis := some env.cloneId,
                       status := .COMPLETED }
    | none =>
      match env.processingSave with
      | .error e => .error (e, job)
      | .ok _ =>
        let job2 : Job := { job with status := .PROCESSING }
        match env.retrievalPhase with
        | .error e => .error (e, job2)
        | .ok _ =>
          match env.llmPhase with
          | .error e => .error (e, job2)
          | .ok _ =>
            match env.resultSave with
            | .error e => .error (e, job2)
            | .ok _ =>
              match env.completeSave with
              | .error e => .error (e, job2)
              | .ok _ => .ok { job2 with diagnosis := some env.resultId, status := .COMPLETED }

/-- The `try`/`except` block: a caught failure records message and FAILED
status via `failSave`; if that save itself raises, the exception
propagates and the stored job keeps the state it had at failure time. -/
def runTry (job : Job) (env : ProcEnv) : Job :=
  match tryPhases job env with
  | .ok j => j
  | .error (msg, jAtFailure) =>
    match env.failSave with
    | .ok _ => { jAtFailure with status := .FAILED, error_message := some msg }
    | .error _ => jAtFailure

/-- `_process_job(job_id)`: `none` models a job that disappeared before
processing. Terminal jobs are left untouched; a stale stored fingerprint
is re-persisted before the `try` (an exception there propagates with the
row unchanged); then the pipeline runs. The result is the stored job row
after the call. -/
def process_job (job? : Option Job) (env : ProcEnv) : Option Job :=
  match job? with
  | none => none
  | some job =>
    if job.status = .COMPLETED ∨ job.status = .FAILED then some job
    else
      let fingerprint :=
        if job.case_fingerprint ≠ "" then job.case_fingerprint else env.computedFingerprint
      if job.case_fingerprint ≠ fingerprint then
        match env.fpSave with
        | .error _ => some job
        | .ok _ => some (runTry { job with case_fingerprint := fingerprint } env)
      else some (runTry job env)

/-- C3 counterexample: the job is PENDING, summary generation raises, and
the failure-recording save raises too ("database is locked"); the
exception escapes `_process_job` and the job stays PENDING. -/
theorem process_job_stuck_counterexample :
    process_job (some ⟨.PENDING, "abc", none, none, none⟩)
        ⟨"abc", .ok (), .error "summary generation failed", none, 0, .ok (), .ok (),
          .ok [], .ok (), 0, .ok (), .ok (), .error "database is locked"⟩ =
      some ⟨.PENDING, "abc", none, none, none⟩ := by
  rfl

/-- C3 (amended): provided the failure-recording save succeeds and — when
the job carries no stored fingerprint — the pre-`try` fingerprint save
succeeds as well, processing a non-terminal job always ends with the job
COMPLETED or FAILED, and a FAILED job carries the failure message. -/
theorem process_job_terminal (job : Job) (env : ProcEnv)
    (hterm : ¬ (job.status = .COMPLETED ∨ job.status = .FAILED))
    (hfail : env.failSave = .ok ())
    (hfp : job.case_fingerprint = "" → env.fpSave = .ok ()) :
    ∃ j, process_job (some job) env = some j ∧
      (j.status = .COMPLETED ∨ j.status = .FAILED) ∧
      (j.status = .FAILED → j.error_message ≠ none) := by
  have hrun : ∀ jb : Job, (runTry jb env).status = .COMPLETED ∨
      ((runTry jb env).status = .FAILED ∧ (runTry jb env).error_message ≠ none) := by
    intro jb
    unfold runTry tryPhases
    rcases env.summaryPhase with e | u
    · simp [hfail]
    · rcases hex : env.existingResult with _ | rid
      · rcases env.processingSave with e | u2
        · simp [hfail]
        · rcases env.retrievalPhase with e | ids
          · simp [hfail]
          · rcases env.llmPhase with e | u3
            · simp [hfail]
            · rcases env.resultSave with e | u4
              · simp [hfail]
              · rcases env.completeSave with e | u5
                · simp [hfail]
                · simp
      · rcases env.reuseSave with e | u2
        · simp [hfail]
        · simp
  have hpick : ∀ jb : Job, ∃ j, some (runTry jb env) = some j ∧
      (j.status = .COMPLETED ∨ j.status = .FAILED) ∧
      (j.status = .FAILED → j.error_message ≠ none) := by
    intro jb
    refine ⟨runTry jb env, rfl, ?_, ?_⟩
    · rcases hrun jb with h | h
      · exact Or.inl h
      · exact Or.inr h.1
    · intro hst
      rcases hrun jb with h | h
      · rw [h] at hst; cases hst
      · exact h.2
  unfold process_job
  simp only [hterm, if_false]
  by_cases hemp : job.case_fingerprint = ""
  · by_cases hcomp : env.computedFingerprint = ""
    · have : ¬ (job.case_fingerprint ≠
          (if job.case_fingerprint ≠ "" then job.case_fingerprint else env.computedFingerprint)) := by
        simp [hemp, hcomp]
      rw [if_neg this]
      exact hpick job
    · have : (job.case_fingerprint ≠
          (if job.case_fingerprint ≠ "" then job.case_fingerprint else env.computedFingerprint)) := by
        simp [hemp]
        exact fun hh => hcomp hh.symm
      rw [if_pos this, hfp hemp]
      exact hpick _
  · have : ¬ (job.case_fingerprint ≠
        (if job.case_fingerprint ≠ "" then job.case_fingerprint else env.computedFingerprint)) := by
      simp [hemp]
    rw [if_neg this]
    exact hpick job

/-- Closed instance of `process_job_terminal`: a PENDING job whose LLM
phase raises ends FAILED with the message recorded. -/
theorem process_job_terminal_witness :
    ∃ j, process_job (some ⟨.PENDING, "abc", none, none, none⟩)
        ⟨"abc", .ok (), .ok (), none, 0, .ok (), .ok (), .ok [], .error "No Groq API keys configured",
          0, .ok (), .ok (), .ok ()⟩ = some j ∧
      (j.status = .COMPLETED ∨ j.status = .FAILED) ∧
      (j.status = .FAILED → j.error_message ≠ none) :=
  process_job_terminal ⟨.PENDING, "abc", none, none, none⟩
    ⟨"abc", .ok (), .ok (), none, 0, .ok (), .ok (), .ok [], .error "No Groq API keys configured",
      0, .ok (), .ok (), .ok ()⟩
    (by decide) rfl (fun h => by simp at h)

end DiagnosisJobService

end Diagnosis

namespace Diagnosis

/-! ## ClinicalSummaryGenerator (`services/clinical_summary_generator.py`) -/

namespace ClinicalSummaryGenerator

/-- Decimal digits of a fractional part `0 ≤ f < 1`, fuel-bounded. -/
def fracDigits : ℕ → ℚ → List Char
  | 0, _ => []
  | n + 1, f =>
    if f = 0 then []
    else
      let f10 := f * 10
      let d := ⌊f10⌋
      Char.ofNat (48 + d.toNat) :: fracDigits n (f10 - d)

/-- Python `str()` of a float holding an exact decimal value: always at
least one digit after the point (`str(92.0) = "92.0"`). Binary floating
point representation noise is idealized away. -/
def pyFloatRepr (q : ℚ) : String :=
  let sign := if q < 0 then "-" else ""
  let a := |q|
  let ip := ⌊a⌋
  let fr := a - ip
  sign ++ toString ip ++ "." ++ (if fr = 0 then "0" else ⟨fracDigits 17 fr⟩)

def bpText (sys dia : ℤ) : String :=
  "BP " ++ toString sys ++ "/" ++ toString dia ++ " mmHg"

def hrText (hr : ℤ) : String := "HR " ++ toString hr ++ " bpm"

def rrText (rr : ℤ) : String := "RR " ++ toString rr ++ " breaths/min"

def spo2Text (s : ℚ) : String := "SpO2 " ++ pyFloatRepr s ++ "%"

def tempText (t : ℚ) : String := "Temp " ++ pyFloatRepr t ++ "°F"

/-- The blood-pressure block (lines 62–67): considered only when both
components are truthy (present and nonzero). -/
def bpFlag (v : Vitals) : List String :=
  match v.blood_pressure_systolic, v.blood_pressure_diastolic with
  | some sys, some dia =>
    if sys ≠ 0 ∧ dia ≠ 0 then
      if sys > 140 ∨ sys < 90 then [bpText sys dia ++ " (abnormal)"]
      else if dia > 90 ∨ dia < 60 then [bpText sys dia ++ " (abnormal)"]
      else []
    else []
  | _, _ => []

/-- The heart-rate block (lines 69–72). -/
def hrFlag (v : Vitals) : List String :=
  match v.heart_rate with
  | some hr =>
    if hr ≠ 0 then
      if hr > 100 ∨ hr < 60 then [hrText hr ++ " (abnormal)"] else []
    else []
  | none => []

/-- The respiratory-rate block (lines 74–77). -/
def rrFlag (v : Vitals) : List String :=
  match v.respiratory_rate with
  | some rr =>
    if rr ≠ 0 then
      if rr > 20 ∨ rr < 12 then [rrText rr ++ " (abnormal)"] else []
    else []
  | none => []

/-- The oxygen-saturation block (lines 79–82). -/
def spo2Flag (v : Vitals) : List String :=
  match v.oxygen_saturation with
  | some s =>
    if s ≠ 0 then
      if s < 95 then [spo2Text s ++ " (abnormal)"] else []
    else []
  | none => []

/-- The temperature block (lines 84–87). -/
def tempFlag (v : Vitals) : List String :=
  match v.temperature with
  | some t =>
    if t ≠ 0 then
      if t > 1004 / 10 ∨ t < 95 then [tempText t ++ " (abnormal)"] else []
    else []
  | none => []

/-- The `abnormal_vitals` list of the generator (lines 60–87): each vital
is looked at only when its value is truthy (present and nonzero; blood
pressure needs both components truthy), and flagged when outside its
normal range. -/
def abnormalVitals (v : Vitals) : List String :=
  bpFlag v ++ hrFlag v ++ rrFlag v ++ spo2Flag v ++ tempFlag v

def joinCommaSp : List String → String
  | [] => ""
  | [s] => s
  | s :: rest => s ++ ", " ++ joinCommaSp rest

/-- The `Abnormal Vitals:` line of the summary. -/
def vitalsLine (vitals : Option Vitals) : String :=
  match vitals with
  | none => "Abnormal Vitals: No vitals recorded"
  | some v =>
    "Abnormal Vitals: " ++
      (if abnormalVitals v = [] then "All vitals within normal range"
       else joinCommaSp (abnormalVitals v))

/-- One previous visit as the generator reads it back from storage for a
follow-up: visit number, creation date already rendered as `%Y-%m-%d`,
chief complaint, and — when a prior diagnosis exists — its top
diagnosis (name and the stored likelihood, rendered as Python would
print the stored JSON number) and triage level. -/
structure PrevVisitInfo where
  visit_number : ℤ
  date : String
  chief_complaint : String
  prev_diagnosis : Option (Option (String × String) × String)
deriving DecidableEq

/-- The lines the previous-visit loop appends for one prior visit. -/
def prevVisitLines (p : PrevVisitInfo) : List String :=
  ["\nVisit #" ++ toString p.visit_number ++ " (" ++ p.date ++ "):",
   "  - Chief Complaint: " ++ p.chief_complaint] ++
  (match p.prev_diagnosis with
   | none => []
   | some (topDx, triage) =>
     (match topDx with
      | some (name, likelihood) =>
        ["  - Previous Diagnosis: " ++ name ++ " (" ++ likelihood ++ "% likelihood)"]
      | none => []) ++
     ["  - Triage Level: " ++ triage])

/-- `generate(visit, vitals, labs)`: the structured summary text. `prev`
carries the (at most two, most recent first) prior visits the generator
queries for a follow-up visit. -/
def generate (visit : Visit) (prev : List PrevVisitInfo) (vitals : Option Vitals)
    (labs : Option Labs) : String :=
  let patient := visit.patient
  let is_follow_up := visit.visit_type = "FOLLOW_UP"
  let headerParts : List String :=
    if is_follow_up then
      ["**FOLLOW-UP VISIT #" ++ toString visit.visit_number ++ "**",
       "This is a return visit for ongoing care.\n"]
    else ["**INITIAL VISIT**\n"]
  let historyParts : List String :=
    if is_follow_up ∧ prev ≠ [] then
      "\n**PREVIOUS VISIT HISTORY:**" :: prev.flatMap prevVisitLines ++ [""]
    else []
  let labsLine :=
    match labs with
    | some l =>
      if l.lab_results ≠ "" then "Critical Lab Findings: " ++ l.lab_results
      else "Critical Lab Findings: No labs recorded"
    | none => "Critical Lab Findings: No labs recorded"
  let historyLine :=
    "Relevant Medical History: " ++
      (match patient.past_medical_history with
       | some h => if h ≠ "" then h else "None reported"
       | none => "None reported")
  let medicationsLine :=
    "Current Medications: " ++
      (match patient.medications with
       | some m => if m ≠ "" then m else "None reported"
       | none => "None reported")
  let parts :=
    headerParts ++
    ["Chief Complaint: " ++ visit.chief_complaint,
     "Key Symptoms: " ++ visit.symptoms] ++
    historyParts ++
    [vitalsLine vitals, labsLine, historyLine,
     "Demographics: " ++ toString patient.age ++ " year old " ++ patient.sex,
     medicationsLine]
  String.intercalate "\n" parts

end ClinicalSummaryGenerator

end Diagnosis

namespace Diagnosis

/-- The head character of a string survives appending on the right. -/
theorem head?_append_left (s t : String) (c : Char) (h : s.data.head? = some c) :
    (s ++ t).data.head? = some c := by
  rw [String.data_append]
  cases hs : s.data with
  | nil => rw [hs] at h; cases h
  | cons a as => rw [hs] at h; simpa using h

namespace ClinicalSummaryGenerator

theorem head_bpEntry (sys dia : ℤ) :
    (bpText sys dia ++ " (abnormal)").data.head? = some 'B' := by
  unfold bpText
  repeat apply head?_append_left
  rfl

theorem head_hrEntry (hr : ℤ) : (hrText hr ++ " (abnormal)").data.head? = some 'H' := by
  unfold hrText
  repeat apply head?_append_left
  rfl

theorem head_rrEntry (rr : ℤ) : (rrText rr ++ " (abnormal)").data.head? = some 'R' := by
  unfold rrText
  repeat apply head?_append_left
  rfl

theorem head_spo2Entry (s : ℚ) : (spo2Text s ++ " (abnormal)").data.head? = some 'S' := by
  unfold spo2Text
  repeat apply head?_append_left
  rfl

theorem head_tempEntry (t : ℚ) : (tempText t ++ " (abnormal)").data.head? = some 'T' := by
  unfold tempText
  repeat apply head?_append_left
  rfl

theorem bpFlag_head (v : Vitals) (x : String) (h : x ∈ bpFlag v) :
    x.data.head? = some 'B' := by
  unfold bpFlag at h
  rcases hsys : v.blood_pressure_systolic with _ | sys <;> rw [hsys] at h <;>
    rcases hdia : v.blood_pressure_diastolic with _ | dia <;> rw [hdia] at h <;>
    try simp at h
  first
    | (rw [h.2.2]; exact head_bpEntry sys dia)
    | (rw [h.2]; exact head_bpEntry sys dia)
    | (rw [h]; exact head_bpEntry sys dia)
    | (split_ifs at h <;> simp at h <;>
        first
          | (rw [h.2.2]; exact head_bpEntry sys dia)
          | (rw [h.2]; exact head_bpEntry sys dia)
          | (rw [h]; exact head_bpEntry sys dia))

theorem hrFlag_head (v : Vitals) (x : String) (h : x ∈ hrFlag v) :
    x.data.head? = some 'H' := by
  unfold hrFlag at h
  rcases hhr : v.heart_rate with _ | hr <;> rw [hhr] at h <;> try simp at h
  first
    | (rw [h.2.2]; exact head_hrEntry hr)
    | (rw [h.2]; exact head_hrEntry hr)
    | (rw [h]; exact head_hrEntry hr)
    | (split_ifs at h <;> simp at h <;>
        first
          | (rw [h.2.2]; exact head_hrEntry hr)
          | (rw [h.2]; exact head_hrEntry hr)
          | (rw [h]; exact head_hrEntry hr))

theorem rrFlag_head (v : Vitals) (x : String) (h : x ∈ rrFlag v) :
    x.data.head? = some 'R' := by
  unfold rrFlag at h
  rcases hrr : v.respiratory_rate with _ | rr <;> rw [hrr] at h <;> try simp at h
  first
    | (rw [h.2.2]; exact head_rrEntry rr)
    | (rw [h.2]; exact head_rrEntry rr)
    | (rw [h]; exact head_rrEntry rr)
    | (split_ifs at h <;> simp at h <;>
        first
          | (rw [h.2.2]; exact head_rrEntry rr)
          | (rw [h.2]; exact head_rrEntry rr)
          | (rw [h]; exact head_rrEntry rr))

theorem spo2Flag_head (v : Vitals) (x : String) (h : x ∈ spo2Flag v) :
    x.data.head? = some 'S' := by
  unfold spo2Flag at h
  rcases hs : v.oxygen_saturation with _ | s <;> rw [hs] at h <;> try simp at h
  first
    | (rw [h.2.2]; exact head_spo2Entry s)
    | (rw [h.2]; exact head_spo2Entry s)
    | (rw [h]; exact head_spo2Entry s)
    | (split_ifs at h <;> simp at h <;>
        first
          | (rw [h.2.2]; exact head_spo2Entry s)
          | (rw [h.2]; exact head_spo2Entry s)
          | (rw [h]; exact head_spo2Entry s))

theorem tempFlag_head (v : Vitals) (x : String) (h : x ∈ tempFlag v) :
    x.data.head? = some 'T' := by
  unfold tempFlag at h
  rcases ht : v.temperature with _ | t <;> rw [ht] at h <;> try simp at h
  first
    | (rw [h.2.2]; exact head_tempEntry t)
    | (rw [h.2]; exact head_tempEntry t)
    | (rw [h]; exact head_tempEntry t)
    | (split_ifs at h <;> simp at h <;>
        first
          | (rw [h.2.2]; exact head_tempEntry t)
          | (rw [h.2]; exact head_tempEntry t)
          | (rw [h]; exact head_tempEntry t))

end ClinicalSummaryGenerator

end Diagnosis

namespace Diagnosis

namespace ClinicalSummaryGenerator

/-- The concrete vitals of the end-to-end scenario: BP 160/95, HR 110,
RR 16, SpO2 92, no temperature. -/
def scenarioVitals : Vitals := ⟨some 160, some 95, some 110, some 16, some 92, none⟩

/-- Cross-check of the generator against the output of the Python
implementation on the scenario visit (spo2 is stored in a float column,
so Python prints it as `92.0`). -/
theorem summary_matches_python :
    generate exVisit [] (some scenarioVitals) none =
      "**INITIAL VISIT**\n\nChief Complaint: chest pain\nKey Symptoms: shortness of breath\nAbnormal Vitals: BP 160/95 mmHg (abnormal), HR 110 bpm (abnormal), SpO2 92.0% (abnormal)\nCritical Lab Findings: No labs recorded\nRelevant Medical History: None reported\nDemographics: 34 year old M\nCurrent Medications: None reported" := by
  decide

/-- C8 counterexample: a recorded heart rate of 0 lies outside the normal
range 60–100, yet the generator flags nothing and reports all vitals
within normal range. -/
theorem summary_zero_hr_counterexample :
    abnormalVitals ⟨none, none, some 0, none, none, none⟩ = [] ∧
    vitalsLine (some ⟨none, none, some 0, none, none, none⟩) =
      "Abnormal Vitals: All vitals within normal range" ∧
    (0 : ℤ) < 60 := by
  refine ⟨rfl, rfl, by decide⟩

/-- C8 (amended): among the vitals that are present AND nonzero (blood
pressure requiring both components nonzero), the generator flags with
"(abnormal)" exactly those outside the normal ranges (systolic 90–140,
diastolic 60–90, HR 60–100, RR 12–20, SpO2 ≥ 95, temperature 95–100.4),
states the within-normal-range message when none is flagged, and on the
concrete scenario (BP 160/95, HR 110, RR 16, SpO2 92) produces exactly
the BP, HR and SpO2 markers — none for the respiratory rate. -/
theorem summary_abnormal_flags :
    (∀ (v : Vitals) (sys dia : ℤ),
      v.blood_pressure_systolic = some sys → v.blood_pressure_diastolic = some dia →
      ((bpText sys dia ++ " (abnormal)") ∈ abnormalVitals v ↔
        sys ≠ 0 ∧ dia ≠ 0 ∧ (sys > 140 ∨ sys < 90 ∨ dia > 90 ∨ dia < 60))) ∧
    (∀ (v : Vitals) (hr : ℤ), v.heart_rate = some hr →
      ((hrText hr ++ " (abnormal)") ∈ abnormalVitals v ↔ hr ≠ 0 ∧ (hr > 100 ∨ hr < 60))) ∧
    (∀ (v : Vitals) (rr : ℤ), v.respiratory_rate = some rr →
      ((rrText rr ++ " (abnormal)") ∈ abnormalVitals v ↔ rr ≠ 0 ∧ (rr > 20 ∨ rr < 12))) ∧
    (∀ (v : Vitals) (s : ℚ), v.oxygen_saturation = some s →
      ((spo2Text s ++ " (abnormal)") ∈ abnormalVitals v ↔ s ≠ 0 ∧ s < 95)) ∧
    (∀ (v : Vitals) (t : ℚ), v.temperature = some t →
      ((tempText t ++ " (abnormal)") ∈ abnormalVitals v ↔
        t ≠ 0 ∧ (t > 1004 / 10 ∨ t < 95))) ∧
    (∀ v : Vitals, abnormalVitals v = [] →
      vitalsLine (some v) = "Abnormal Vitals: All vitals within normal range") ∧
    (abnormalVitals scenarioVitals =
      [bpText 160 95 ++ " (abnormal)", hrText 110 ++ " (abnormal)",
       spo2Text 92 ++ " (abnormal)"] ∧
     LLMService.strContains (generate exVisit [] (some scenarioVitals) none)
       (bpText 160 95 ++ " (abnormal)") = true ∧
     LLMService.strContains (generate exVisit [] (some scenarioVitals) none)
       (hrText 110 ++ " (abnormal)") = true ∧
     LLMService.strContains (generate exVisit [] (some scenarioVitals) none)
       (spo2Text 92 ++ " (abnormal)") = true ∧
     LLMService.strContains (generate exVisit [] (some scenarioVitals) none)
       (rrText 16 ++ " (abnormal)") = false) := by
  refine ⟨?_, ?_, ?_, ?_, ?_, ?_, ?_⟩
  · intro v sys dia hsys hdia
    constructor
    · intro hmem
      simp only [abnormalVitals, List.mem_append] at hmem
      rcases hmem with ((((hb | hh) | hr) | hs) | ht)
      · simp only [bpFlag, hsys, hdia] at hb
        split_ifs at hb with h1 h2 h3 <;> simp at hb
        · exact ⟨h1.1, h1.2, by tauto⟩
        · exact ⟨h1.1, h1.2, by tauto⟩
      · have := hrFlag_head v _ hh
        rw [head_bpEntry sys dia] at this
        simp at this
      · have := rrFlag_head v _ hr
        rw [head_bpEntry sys dia] at this
        simp at this
      · have := spo2Flag_head v _ hs
        rw [head_bpEntry sys dia] at this
        simp at this
      · have := tempFlag_head v _ ht
        rw [head_bpEntry sys dia] at this
        simp at this
    · rintro ⟨h1, h2, h3⟩
      simp only [abnormalVitals, List.mem_append]
      refine Or.inl (Or.inl (Or.inl (Or.inl ?_)))
      by_cases hso : sys > 140 ∨ sys < 90
      · simp [bpFlag, hsys, hdia, h1, h2, hso]
      · have hdo : dia > 90 ∨ dia < 60 := by tauto
        simp [bpFlag, hsys, hdia, h1, h2, hso, hdo]
  · intro v hr hhr
    constructor
    · intro hmem
      simp only [abnormalVitals, List.mem_append] at hmem
      rcases hmem with ((((hb | hh) | hrb) | hs) | ht)
      · have := bpFlag_head v _ hb
        rw [head_hrEntry hr] at this
        simp at this
      · simp only [hrFlag, hhr] at hh
        split_ifs at hh with h1 h2 <;> simp at hh
        exact ⟨h1, h2⟩
      · have := rrFlag_head v _ hrb
        rw [head_hrEntry hr] at this
        simp at this
      · have := spo2Flag_head v _ hs
        rw [head_hrEntry hr] at this
        simp at this
      · have := tempFlag_head v _ ht
        rw [head_hrEntry hr] at this
        simp at this
    · rintro ⟨h1, h2⟩
      simp only [abnormalVitals, List.mem_append]
      refine Or.inl (Or.inl (Or.inl (Or.inr ?_)))
      simp [hrFlag, hhr, h1, h2]
  · intro v rr hrr
    constructor
    · intro hmem
      simp only [abnormalVitals, List.mem_append] at hmem
      rcases hmem with ((((hb | hh) | hrb) | hs) | ht)
      · have := bpFlag_head v _ hb
        rw [head_rrEntry rr] at this
        simp at this
      · have := hrFlag_head v _ hh
        rw [head_rrEntry rr] at this
        simp at this
      · simp only [rrFlag, hrr] at hrb
        split_ifs at hrb with h1 h2 <;> simp at hrb
        exact ⟨h1, h2⟩
      · have := spo2Flag_head v _ hs
        rw [head_rrEntry rr] at this
        simp at this
      · have := tempFlag_head v _ ht
        rw [head_rrEntry rr] at this
        simp at this
    · rintro ⟨h1, h2⟩
      simp only [abnormalVitals, List.mem_append]
      refine Or.inl (Or.inl (Or.inr ?_))
      simp [rrFlag, hrr, h1, h2]
  · intro v s hs
    constructor
    · intro hmem
      simp only [abnormalVitals, List.mem_append] at hmem
      rcases hmem with ((((hb | hh) | hrb) | hsb) | ht)
      · have := bpFlag_head v _ hb
        rw [head_spo2Entry s] at this
        simp at this
      · have := hrFlag_head v _ hh
        rw [head_spo2Entry s] at this
        simp at this
      · have := rrFlag_head v _ hrb
        rw [head_spo2Entry s] at this
        simp at this
      · simp only [spo2Flag, hs] at hsb
        split_ifs at hsb with h1 h2 <;> simp at hsb
        exact ⟨h1, h2⟩
      · have := tempFlag_head v _ ht
        rw [head_spo2Entry s] at this
        simp at this
    · rintro ⟨h1, h2⟩
      simp only [abnormalVitals, List.mem_append]
      refine Or.inl (Or.inr ?_)
      simp [spo2Flag, hs, h1, h2]
  · intro v t ht
    constructor
    · intro hmem
      simp only [abnormalVitals, List.mem_append] at hmem
      rcases hmem with ((((hb | hh) | hrb) | hsb) | htb)
      · have := bpFlag_head v _ hb
        rw [head_tempEntry t] at this
        simp at this
      · have := hrFlag_head v _ hh
        rw [head_tempEntry t] at this
        simp at this
      · have := rrFlag_head v _ hrb
        rw [head_tempEntry t] at this
        simp at this
      · have := spo2Flag_head v _ hsb
        rw [head_tempEntry t] at this
        simp at this
      · simp only [tempFlag, ht] at htb
        split_ifs at htb with h1 h2 <;> simp at htb
        exact ⟨h1, h2⟩
    · rintro ⟨h1, h2⟩
      simp only [abnormalVitals, List.mem_append]
      refine Or.inr ?_
      simp [tempFlag, ht, h1, h2]
  · intro v h
    simp [vitalsLine, h]
  · refine ⟨by decide, by decide, by decide, by decide, by decide⟩

/-- Closed instance of `summary_abnormal_flags`: on the scenario vitals
the HR marker is present because 110 exceeds 100, and the within-range
message appears for empty vitals. -/
theorem summary_abnormal_flags_witness :
    (hrText 110 ++ " (abnormal)") ∈ abnormalVitals scenarioVitals ∧
    vitalsLine (some ⟨none, none, none, none, none, none⟩) =
      "Abnormal Vitals: All vitals within normal range" :=
  ⟨(summary_abnormal_flags.2.1 scenarioVitals 110 rfl).mpr ⟨by decide, Or.inl (by decide)⟩,
   summary_abnormal_flags.2.2.2.2.2.1 ⟨none, none, none, none, none, none⟩ rfl⟩

/-- Claim C10: a vital recorded as 0 is treated exactly like an absent
vital (Python truthiness) — it is never flagged even though 0 lies
outside every normal range — and blood pressure contributes no entry
unless both components are present and nonzero. -/
theorem summary_zero_vitals_omitted :
    (∀ v : Vitals, abnormalVitals { v with blood_pressure_systolic := some 0 } =
      abnormalVitals { v with blood_pressure_systolic := none }) ∧
    (∀ v : Vitals, abnormalVitals { v with blood_pressure_diastolic := some 0 } =
      abnormalVitals { v with blood_pressure_diastolic := none }) ∧
    (∀ v : Vitals, abnormalVitals { v with heart_rate := some 0 } =
      abnormalVitals { v with heart_rate := none }) ∧
    (∀ v : Vitals, abnormalVitals { v with respiratory_rate := some 0 } =
      abnormalVitals { v with respiratory_rate := none }) ∧
    (∀ v : Vitals, abnormalVitals { v with oxygen_saturation := some 0 } =
      abnormalVitals { v with oxygen_saturation := none }) ∧
    (∀ v : Vitals, abnormalVitals { v with temperature := some 0 } =
      abnormalVitals { v with temperature := none }) ∧
    (∀ (v : Vitals) (sys : ℤ),
      abnormalVitals { v with blood_pressure_systolic := some sys,
                              blood_pressure_diastolic := none } =
      abnormalVitals { v with blood_pressure_systolic := none,
                              blood_pressure_diastolic := none }) ∧
    abnormalVitals ⟨some 150, none, none, none, none, none⟩ = [] := by
  refine ⟨?_, ?_, ?_, ?_, ?_, ?_, ?_, by decide⟩
  · intro v
    obtain ⟨s, d, h, r, o, t⟩ := v
    rcases d with _ | d <;>
      simp [abnormalVitals, bpFlag, hrFlag, rrFlag, spo2Flag, tempFlag]
  · intro v
    obtain ⟨s, d, h, r, o, t⟩ := v
    rcases s with _ | s <;>
      simp [abnormalVitals, bpFlag, hrFlag, rrFlag, spo2Flag, tempFlag]
  · intro v
    obtain ⟨s, d, h, r, o, t⟩ := v
    simp [abnormalVitals, bpFlag, hrFlag, rrFlag, spo2Flag, tempFlag]
  · intro v
    obtain ⟨s, d, h, r, o, t⟩ := v
    simp [abnormalVitals, bpFlag, hrFlag, rrFlag, spo2Flag, tempFlag]
  · intro v
    obtain ⟨s, d, h, r, o, t⟩ := v
    simp [abnormalVitals, bpFlag, hrFlag, rrFlag, spo2Flag, tempFlag]
  · intro v
    obtain ⟨s, d, h, r, o, t⟩ := v
    simp [abnormalVitals, bpFlag, hrFlag, rrFlag, spo2Flag, tempFlag]
  · intro v sys
    obtain ⟨s, d, h, r, o, t⟩ := v
    simp [abnormalVitals, bpFlag, hrFlag, rrFlag, spo2Flag, tempFlag]

end ClinicalSummaryGenerator

end Diagnosis

namespace Diagnosis

/-! ## The request handler's reuse path (`views.py`, `generate_diagnosis`)

The handler is embedded as a pure transition on the relevant stored
tables. The sentence-transformer embedding is an external collaborator,
passed as the parameter `embedBin` (the composition of
`generate_embedding` and `numpy_to_binary`); the handler's `try` guards
only collaborator failures, which are not modelled here — the theorems
describe the behaviour when the collaborators return. The effect record
says whether any job was handed to the worker pool and whether the
handler itself invoked the LLM gateway (it never does; on a cache miss
the LLM runs later, inside the enqueued job). -/

namespace Views

/-- A stored `DiagnosisResult` row (fields the handler touches). -/
structure ResultRow where
  id : ℕ
  visit : ℕ
  source_result : Option ℕ
  case_fingerprint : String
  differential_diagnoses : String
  triage_level : String
  explanation : String
  confidence_score : ℚ
  retrieved_cases : List String
deriving DecidableEq

/-- A stored `DiagnosisJob` row (fields the handler touches). -/
structure JobRow where
  id : ℕ
  visit : ℕ
  created_by : String
  status : DiagnosisJobService.JobStatus
  case_fingerprint : String
  reuse_source : Option ℕ
  diagnosis : Option ℕ
deriving DecidableEq

/-- The stored tables, with results and jobs kept in creation order and
fresh primary keys handed out by the counters. -/
structure Db where
  results : List ResultRow
  jobs : List JobRow
  summaries : List (ℕ × String × String)
  nextResultId : ℕ
  nextJobId : ℕ
deriving DecidableEq

/-- What the handler did besides writing rows. -/
structure ViewEffects where
  llmCalled : Bool
  enqueued : List ℕ
  redirect : String
deriving DecidableEq

/-- `DiagnosisResult.objects.filter(case_fingerprint=F).order_by('-created_at').first()`:
with rows in creation order, the newest match is the last one. -/
def newestResultWithFingerprint (results : List ResultRow) (fp : String) : Option ResultRow :=
  (results.filter fun r => r.case_fingerprint = fp).getLast?

/-- `ClinicalSummary.objects.update_or_create(visit=visit, ...)`. -/
def upsertSummary (db : Db) (visitId : ℕ) (text emb : String) : Db :=
  { db with summaries :=
      if db.summaries.any fun s => s.1 = visitId then
        db.summaries.map fun s => if s.1 = visitId then (visitId, text, emb) else s
      else db.summaries ++ [(visitId, text, emb)] }

/-- The cache-miss tail of the handler: create a PENDING job and hand it
to the worker pool. -/
def enqueueBranch (db1 : Db) (visitId : ℕ) (user fingerprint : String) : Db × ViewEffects :=
  let job : JobRow :=
    { id := db1.nextJobId, visit := visitId, created_by := user,
      status := .PENDING, case_fingerprint := fingerprint,
      reuse_source := none, diagnosis := none }
  let db2 := { db1 with jobs := db1.jobs ++ [job], nextJobId := db1.nextJobId + 1 }
  (db2, { llmCalled := false, enqueued := [job.id], redirect := "diagnosis_job_detail" })

/-- The `generate_diagnosis` request handler: compute the fingerprint;
under `force_regenerate` delete this visit's prior results; look up the
newest result with this fingerprint; on a hit (and no force) refresh the
stored summary, clone the hit into a new row with `source_result` set,
create a COMPLETED job referencing the clone and return synchronously;
otherwise create a PENDING job and hand it to the worker pool. -/
def generate_diagnosis_view (db : Db) (embedBin : String → String) (visit : Visit)
    (visitId : ℕ) (prev : List ClinicalSummaryGenerator.PrevVisitInfo)
    (vitals : Option Vitals) (labs : Option Labs) (user : String)
    (force_regenerate : Bool) : Db × ViewEffects :=
  let fingerprint := CaseFingerprintService.generate visit vitals labs
  let db1 :=
    if force_regenerate then
      { db with results := db.results.filter fun r => r.visit ≠ visitId }
    else db
  if force_regenerate then enqueueBranch db1 visitId user fingerprint
  else
    match newestResultWithFingerprint db1.results fingerprint with
    | some ex =>
      let summary_text := ClinicalSummaryGenerator.generate visit prev vitals labs
      let db2 := upsertSummary db1 visitId summary_text (embedBin summary_text)
      let clone : ResultRow :=
        { id := db2.nextResultId, visit := visitId, source_result := some ex.id,
          case_fingerprint := fingerprint,
          differential_diagnoses := ex.differential_diagnoses,
          triage_level := ex.triage_level, explanation := ex.explanation,
          confidence_score := ex.confidence_score, retrieved_cases := ex.retrieved_cases }
      let db3 := { db2 with results := db2.results ++ [clone],
                            nextResultId := db2.nextResultId + 1 }
      let job : JobRow :=
        { id := db3.nextJobId, visit := visitId, created_by := user,
          status := .COMPLETED, case_fingerprint := fingerprint,
          reuse_source := some ex.id, diagnosis := some clone.id }
      let db4 := { db3 with jobs := db3.jobs ++ [job], nextJobId := db3.nextJobId + 1 }
      (db4, { llmCalled := false, enqueued := [], redirect := "diagnosis_result" })
    | none => enqueueBranch db1 visitId user fingerprint

/-- Claim C6: when a result with the request's fingerprint exists and
`force_regenerate` is off, the handler synchronously appends exactly one
new result — a clone of the newest existing one, with identical
diagnostic content and `source_result` pointing at it — and one job
created directly in COMPLETED state referencing the clone, with no LLM
gateway call and nothing enqueued. -/
theorem reuse_path_clones (db : Db) (embedBin : String → String) (visit : Visit)
    (visitId : ℕ) (prev : List ClinicalSummaryGenerator.PrevVisitInfo)
    (vitals : Option Vitals) (labs : Option Labs) (user : String) (ex : ResultRow)
    (hex : newestResultWithFingerprint db.results
      (CaseFingerprintService.generate visit vitals labs) = some ex) :
    ∃ clone : ResultRow, ∃ job : JobRow,
      (generate_diagnosis_view db embedBin visit visitId prev vitals labs user false).1.results
          = db.results ++ [clone] ∧
      clone.differential_diagnoses = ex.differential_diagnoses ∧
      clone.triage_level = ex.triage_level ∧
      clone.explanation = ex.explanation ∧
      clone.confidence_score = ex.confidence_score ∧
      clone.retrieved_cases = ex.retrieved_cases ∧
      clone.source_result = some ex.id ∧
      (generate_diagnosis_view db embedBin visit visitId prev vitals labs user false).1.jobs
          = db.jobs ++ [job] ∧
      job.status = .COMPLETED ∧
      job.diagnosis = some clone.id ∧
      job.reuse_source = some ex.id ∧
      (generate_diagnosis_view db embedBin visit visitId prev vitals labs user false).2.llmCalled
          = false ∧
      (generate_diagnosis_view db embedBin visit visitId prev vitals labs user false).2.enqueued
          = [] := by
  simp only [generate_diagnosis_view, Bool.false_eq_true, if_false, hex]
  refine
    ⟨{ id := db.nextResultId, visit := visitId, source_result := some ex.id,
       case_fingerprint := CaseFingerprintService.generate visit vitals labs,
       differential_diagnoses := ex.differential_diagnoses,
       triage_level := ex.triage_level, explanation := ex.explanation,
       confidence_score := ex.confidence_score, retrieved_cases := ex.retrieved_cases },
     { id := db.nextJobId, visit := visitId, created_by := user,
       status := .COMPLETED,
       case_fingerprint := CaseFingerprintService.generate visit vitals labs,
       reuse_source := some ex.id, diagnosis := some db.nextResultId },
     ?_, ?_, ?_, ?_, ?_, ?_, ?_, ?_, ?_, ?_, ?_, ?_, ?_⟩ <;>
    first
      | rfl
      | trivial

/-- A concrete stored result whose fingerprint matches the concrete
visit's presentation. -/
def exRow : ResultRow :=
  ⟨1, 7, none, CaseFingerprintService.generate exVisit (some (exVitals 102)) none,
   "[]", "HIGH", "prior explanation", 9 / 10, ["c1"]⟩

/-- A concrete database holding only `exRow`. -/
def exDb : Db := ⟨[exRow], [], [], 2, 1⟩

/-- Closed instance of `reuse_path_clones` on the concrete database. -/
theorem reuse_path_clones_witness :
    ∃ clone : ResultRow, ∃ job : JobRow,
      (generate_diagnosis_view exDb (fun _ => "emb") exVisit 7 [] (some (exVitals 102))
          none "dr-lee" false).1.results = exDb.results ++ [clone] ∧
      clone.differential_diagnoses = exRow.differential_diagnoses ∧
      clone.triage_level = exRow.triage_level ∧
      clone.explanation = exRow.explanation ∧
      clone.confidence_score = exRow.confidence_score ∧
      clone.retrieved_cases = exRow.retrieved_cases ∧
      clone.source_result = some exRow.id ∧
      (generate_diagnosis_view exDb (fun _ => "emb") exVisit 7 [] (some (exVitals 102))
          none "dr-lee" false).1.jobs = exDb.jobs ++ [job] ∧
      job.status = .COMPLETED ∧
      job.diagnosis = some clone.id ∧
      job.reuse_source = some exRow.id ∧
      (generate_diagnosis_view exDb (fun _ => "emb") exVisit 7 [] (some (exVitals 102))
          none "dr-lee" false).2.llmCalled = false ∧
      (generate_diagnosis_view exDb (fun _ => "emb") exVisit 7 [] (some (exVitals 102))
          none "dr-lee" false).2.enqueued = [] :=
  reuse_path_clones exDb (fun _ => "emb") exVisit 7 [] (some (exVitals 102)) none
    "dr-lee" exRow (by decide)

end Views

end Diagnosis

namespace Diagnosis

/-! ## RAGService retrieval (`services/rag_service.py`)

The FAISS flat L2 index over the knowledge-base embeddings is embedded
as the list of its row vectors (exact rationals). `IndexFlatL2.search`
computes the squared L2 distance of the query to every row and returns
the `min(k, ntotal)` closest rows in ascending distance order, which is
modelled by sorting the (row, distance) pairs by distance (squared L2
orders rows exactly as L2 does). `load_index` restores the persisted
index and its parallel id list; `disk = none` models either artifact
missing. -/

namespace RAGService

/-- Squared L2 distance between two vectors. -/
def sqDistL2 (a b : List ℚ) : ℚ := ((a.zip b).map fun p => (p.1 - p.2) ^ 2).sum

/-- The in-memory state of a `RAGService` instance plus the persisted
artifacts. -/
structure RagState where
  index : Option (List (List ℚ))
  case_ids : List String
  disk : Option (List (List ℚ) × List String)

/-- The comparison FAISS sorts candidate rows by. -/
def distLe (a b : ℕ × ℚ) : Prop := a.2 ≤ b.2

instance : DecidableRel distLe := fun a b => inferInstanceAs (Decidable (a.2 ≤ b.2))

instance : IsTotal (ℕ × ℚ) distLe := ⟨fun a b => le_total a.2 b.2⟩

instance : IsTrans (ℕ × ℚ) distLe := ⟨fun _ _ _ => le_trans⟩

/-- All (row index, squared distance to the query) pairs. -/
def pairsFor (vecs : List (List ℚ)) (q : List ℚ) : List (ℕ × ℚ) :=
  (List.range vecs.length).map fun i => (i, sqDistL2 q (vecs.getD i []))

/-- The `min(k, ntotal)` distance-closest rows, ascending. -/
def selectedPairs (vecs : List (List ℚ)) (q : List ℚ) (k : ℕ) : List (ℕ × ℚ) :=
  ((pairsFor vecs q).insertionSort distLe).take (min k vecs.length)

/-- `index.search(query, min(k, ntotal))`: the returned row indices. -/
def search (vecs : List (List ℚ)) (q : List ℚ) (k : ℕ) : List ℕ :=
  (selectedPairs vecs q k).map fun p => p.1

/-- `retrieve_similar_cases(query_embedding, k)`: use the in-memory index
if present, otherwise load from disk; a missing index or an empty index
yields `[]`; otherwise map the returned row indices through the parallel
case-id list. -/
def retrieve_similar_cases (st : RagState) (q : List ℚ) (k : ℕ) : List String :=
  match st.index with
  | some vecs =>
    if vecs.length = 0 then []
    else (search vecs q k).map fun i => st.case_ids.getD i ""
  | none =>
    match st.disk with
    | none => []
    | some (vecs, ids) =>
      if vecs.length = 0 then []
      else (search vecs q k).map fun i => ids.getD i ""

/-- The selection keeps exactly `min k N` pairs. -/
theorem selectedPairs_length (vecs : List (List ℚ)) (q : List ℚ) (k : ℕ) :
    (selectedPairs vecs q k).length = min k vecs.length := by
  unfold selectedPairs
  rw [List.length_take, List.length_insertionSort]
  unfold pairsFor
  rw [List.length_map, List.length_range]
  omega

/-- The selection is sorted by ascending distance. -/
theorem selectedPairs_sorted (vecs : List (List ℚ)) (q : List ℚ) (k : ℕ) :
    ((selectedPairs vecs q k).map fun p => p.2).Sorted (· ≤ ·) := by
  have hs : List.Sorted distLe ((pairsFor vecs q).insertionSort distLe) :=
    List.sorted_insertionSort distLe (pairsFor vecs q)
  have ht : List.Sorted distLe (selectedPairs vecs q k) :=
    List.Pairwise.sublist (List.take_sublist _ _) hs
  exact List.pairwise_map.mpr ht

/-- Every selected pair records the squared distance of its row to the
query. -/
theorem selectedPairs_dist (vecs : List (List ℚ)) (q : List ℚ) (k : ℕ) :
    ∀ p ∈ selectedPairs vecs q k, p.2 = sqDistL2 q (vecs.getD p.1 []) := by
  intro p hp
  have h1 : p ∈ (pairsFor vecs q).insertionSort distLe :=
    (List.take_sublist _ _).subset hp
  have h2 : p ∈ pairsFor vecs q := (List.mem_insertionSort distLe).mp h1
  unfold pairsFor at h2
  obtain ⟨i, _, rfl⟩ := List.mem_map.mp h2
  rfl

/-- Claim C7: `retrieve_similar_cases` returns the empty list without
raising when neither an in-memory nor a persisted index exists or when
the index holds zero vectors, and otherwise returns exactly
`min(k, N)` case identifiers — the ids of the rows closest to the query,
ordered by ascending (squared) L2 distance. -/
theorem retrieve_similar_cases_spec (st : RagState) (q : List ℚ) (k : ℕ) (hk : 1 ≤ k) :
    (st.index = none → st.disk = none → retrieve_similar_cases st q k = []) ∧
    (∀ vecs, st.index = some vecs → vecs.length = 0 →
      retrieve_similar_cases st q k = []) ∧
    (∀ vecs ids, st.index = none → st.disk = some (vecs, ids) → vecs.length = 0 →
      retrieve_similar_cases st q k = []) ∧
    (∀ vecs, st.index = some vecs → vecs.length ≠ 0 →
      retrieve_similar_cases st q k
          = (selectedPairs vecs q k).map (fun p => st.case_ids.getD p.1 "") ∧
      (retrieve_similar_cases st q k).length = min k vecs.length ∧
      ((selectedPairs vecs q k).map fun p => p.2).Sorted (· ≤ ·) ∧
      (∀ p ∈ selectedPairs vecs q k, p.2 = sqDistL2 q (vecs.getD p.1 []))) ∧
    (∀ vecs ids, st.index = none → st.disk = some (vecs, ids) → vecs.length ≠ 0 →
      retrieve_similar_cases st q k
          = (selectedPairs vecs q k).map (fun p => ids.getD p.1 "") ∧
      (retrieve_similar_cases st q k).length = min k vecs.length ∧
      ((selectedPairs vecs q k).map fun p => p.2).Sorted (· ≤ ·) ∧
      (∀ p ∈ selectedPairs vecs q k, p.2 = sqDistL2 q (vecs.getD p.1 []))) := by
  refine ⟨?_, ?_, ?_, ?_, ?_⟩
  · intro h1 h2
    simp [retrieve_similar_cases, h1, h2]
  · intro vecs h1 h2
    simp [retrieve_similar_cases, h1, h2]
  · intro vecs ids h1 h2 h3
    simp [retrieve_similar_cases, h1, h2, h3]
  · intro vecs h1 h2
    have hret : retrieve_similar_cases st q k
        = (selectedPairs vecs q k).map (fun p => st.case_ids.getD p.1 "") := by
      simp [retrieve_similar_cases, h1, h2, search, List.map_map, Function.comp]
    refine ⟨hret, ?_, selectedPairs_sorted vecs q k, selectedPairs_dist vecs q k⟩
    rw [hret, List.length_map, selectedPairs_length]
  · intro vecs ids h1 h2 h3
    have hret : retrieve_similar_cases st q k
        = (selectedPairs vecs q k).map (fun p => ids.getD p.1 "") := by
      simp [retrieve_similar_cases, h1, h2, h3, search, List.map_map, Function.comp]
    refine ⟨hret, ?_, selectedPairs_sorted vecs q k, selectedPairs_dist vecs q k⟩
    rw [hret, List.length_map, selectedPairs_length]

/-- Closed instance of `retrieve_similar_cases_spec`: an in-memory index
of three one-dimensional vectors queried with k = 2. -/
theorem retrieve_similar_cases_spec_witness :
    (retrieve_similar_cases ⟨none, [], none⟩ [0] 2 = []) ∧
    (retrieve_similar_cases ⟨some [[5], [1], [3]], ["a", "b", "c"], none⟩ [0] 2
        = (selectedPairs [[5], [1], [3]] [0] 2).map
            (fun p => ["a", "b", "c"].getD p.1 "") ∧
      (retrieve_similar_cases ⟨some [[5], [1], [3]], ["a", "b", "c"], none⟩ [0] 2).length
        = min 2 3 ∧
      ((selectedPairs [[5], [1], [3]] [0] 2).map fun p => p.2).Sorted (· ≤ ·) ∧
      (∀ p ∈ selectedPairs [[5], [1], [3]] [0] 2,
        p.2 = sqDistL2 [0] ([[5], [1], [3]].getD p.1 []))) :=
  ⟨(retrieve_similar_cases_spec ⟨none, [], none⟩ [0] 2 (by decide)).1 rfl rfl,
   (retrieve_similar_cases_spec ⟨some [[5], [1], [3]], ["a", "b", "c"], none⟩ [0] 2
      (by decide)).2.2.2.1 [[5], [1], [3]] rfl (by decide)⟩

end RAGService

end Diagnosis
